import Mathlib

/-!
Verification development for the Ractr repository's real-time simulation core.

The repository contains several successive variants of the same browser game:
* `src/unnamed/part_001` (first class, survival mini-game) — embedded below in
  namespace `Ractr.Mini`;
* `src/engine/ractr_state.js` (orchestrator with progression) — namespace
  `Ractr.Orch`;
* `src/engine/ractr_game.js` (town variant) — namespace `Ractr.Town`;
* `src/unnamed/part_001` (second class, ARPG variant) — namespace `Ractr.Arpg`.

Modelling conventions:
* JS numbers are modelled as exact rationals (`ℚ`); the float rounding of the
  source is not modelled.
* `Math.sqrt` / `Math.hypot` and `Math.pow` with fractional exponents are not
  rational-valued, so they appear as explicit function parameters
  (`sqrtFn : ℚ → ℚ`, `powFn : ℚ → ℚ`) of the respective configuration
  records; theorems assume only properties that the real functions satisfy,
  and concrete witnesses instantiate them with computable stand-ins.
* `Math.random()` draws are modelled as explicit input streams.
* Rendering, audio, UI and networking collaborators are no-op stand-ins in the
  source's default deployment and are omitted.
-/

namespace Ractr

/-- Directional/action intent snapshot supplied by the input collaborator each
tick (see `_inputSnapshot` in `src/unnamed/part_000`). -/
structure Intent where
  left : Bool
  right : Bool
  up : Bool
  down : Bool
  dash : Bool

/-- JS `Math.round`: rounds half toward positive infinity,
`Math.round x = ⌊x + 1/2⌋`. -/
def jround (q : ℚ) : ℚ := ((⌊q + 1/2⌋ : ℤ) : ℚ)

/-- Computable stand-in for `Math.sqrt`: exact on rationals whose numerator and
denominator are perfect squares, used to instantiate the abstract square-root
parameter of the models at concrete inputs. -/
def ratSqrt (q : ℚ) : ℚ := (Nat.sqrt q.num.toNat : ℚ) / (Nat.sqrt q.den : ℚ)

/-- Coarse run lifecycle state. The survival variants use
`intro | playing | gameover`; the ARPG variant uses `intro | playing | dead`. -/
inductive RunState where
  | intro
  | playing
  | gameover
  | dead
  deriving DecidableEq

/-- Hazard record (`part_001:325-333` and `ractr_state.js:751-758`, identical),
with the cached squared radius. -/
structure Hazard where
  x : ℚ
  y : ℚ
  vx : ℚ
  vy : ℚ
  radius : ℚ
  radiusSq : ℚ
  deriving DecidableEq

/-- Pulse record (`part_001:371-380` and `ractr_state.js:802-811`, identical). -/
structure Pulse where
  x : ℚ
  y : ℚ
  radius : ℚ
  maxRadius : ℚ
  color : String
  life : ℚ
  maxLife : ℚ
  thickness : ℚ
  deriving DecidableEq

/-- Per-pulse decay step of `_updatePulses` (`part_001:383-391`,
`ractr_state.js:814-822`, identical in both survival variants). -/
def stepPulse (dt : ℚ) (p : Pulse) : Pulse :=
  let life := p.life - dt
  { p with life := life, radius := p.maxRadius * (life / p.maxLife) }

/-- `_updatePulses`: decay every pulse, keep those with positive remaining
life. -/
def updatePulses (dt : ℚ) (ps : List Pulse) : List Pulse :=
  (ps.map (stepPulse dt)).filter (fun p => decide (0 < p.life))

/-- `_registerPulse` (`part_001:366-381`, `ractr_state.js:798-812`, identical);
the `thickness || 2` fallback is resolved at the call sites, which always pass
a nonzero thickness. -/
def registerPulse (x y : ℚ) (color : String) (radius duration thickness : ℚ)
    (pulses : List Pulse) : List Pulse :=
  let ps := if 64 < pulses.length then pulses.drop 1 else pulses
  ps ++ [{ x := x
           y := y
           radius := radius
           maxRadius := radius
           color := color
           life := duration
           maxLife := duration
           thickness := thickness }]

/-- Hazard Euler step from `_updateHazards` (`part_001:355-357`,
`ractr_state.js:779-781`). -/
def moveHazard (dt : ℚ) (hzd : Hazard) : Hazard :=
  { hzd with x := hzd.x + hzd.vx * dt, y := hzd.y + hzd.vy * dt }

/-- Cull predicate from `_updateHazards` (`part_001:348-362`,
`ractr_state.js:773-787`): keep a hazard unless it is more than 80 units
outside the `w × h` canvas. -/
def keepHazard (w h : ℚ) (hzd : Hazard) : Bool :=
  decide (¬(hzd.x < -80 ∨ w + 80 < hzd.x ∨ hzd.y < -80 ∨ h + 80 < hzd.y))

/-- Random draws consumed for one spawned hazard in `_spawnHazard`
(`part_001:287-334`, `ractr_state.js:714-758`): the edge choice and the
position, drift, speed-bonus and base-radius `Math.random()` values. -/
structure SpawnDraws where
  edge : Fin 4
  posR : ℚ
  driftR : ℚ
  speedR : ℚ
  radiusR : ℚ

/-- Smoothstep ease applied to the difficulty factor (`part_001:197`,
`ractr_state.js:597`). -/
def easeSmooth (f : ℚ) : ℚ := f * f * (3 - 2 * f)

namespace Mini

/-- Player config group (`part_001:10-15`). -/
structure PlayerCfg where
  maxHealth : ℚ
  dashCooldown : ℚ
  baseSpeed : ℚ
  dashSpeed : ℚ
  deriving DecidableEq

/-- Hazards config group (`part_001:16-24`). -/
structure HazardsCfg where
  baseSpawnInterval : ℚ
  minSpawnInterval : ℚ
  spawnIntervalDecayPerSecond : ℚ
  baseSpeed : ℚ
  randomSpeed : ℚ
  damagePerHit : ℚ
  maxOnScreen : ℚ
  deriving DecidableEq

/-- Difficulty config group (`part_001:25-28`). -/
structure DifficultyCfg where
  speedIncreasePerSecond : ℚ
  spawnCountIncreaseTimes : List ℚ
  deriving DecidableEq

/-- Static environment of the survival mini-game: the config object, the canvas
dimensions (`canvas.clientWidth || 800`, `clientHeight || 600`), the class
field `difficultyDuration` (`part_001:73`, value 60), and the square root
backing `Math.hypot`, abstract because square roots are not rational-valued. -/
structure Config where
  player : PlayerCfg
  hazards : HazardsCfg
  difficulty : DifficultyCfg
  w : ℚ
  h : ℚ
  difficultyDuration : ℚ
  sqrtFn : ℚ → ℚ

/-- Player record (`part_001:37-49`). -/
structure Player where
  x : ℚ
  y : ℚ
  vx : ℚ
  vy : ℚ
  radius : ℚ
  baseSpeed : ℚ
  dashSpeed : ℚ
  dashCooldown : ℚ
  maxHealth : ℚ
  health : ℚ
  invulnTime : ℚ
  deriving DecidableEq

/-- Mutable state of the survival mini-game (constructor `part_001:37-87`). -/
structure State where
  player : Player
  hazards : List Hazard
  spawnTimer : ℚ
  spawnInterval : ℚ
  state : RunState
  time : ℚ
  timeAlive : ℚ
  bestTime : ℚ
  lastHitTime : ℚ
  lastNearMissTime : ℚ
  lastNearMissPulseTime : ℚ
  nearMissStreak : ℚ
  pulses : List Pulse
  deriving DecidableEq

/-- `_difficultyFactor` (`part_001:170-174`):
`max(0, min(difficultyDuration, timeAlive)) / difficultyDuration`. -/
def difficultyFactor (cfg : Config) (st : State) : ℚ :=
  max 0 (min cfg.difficultyDuration st.timeAlive) / cfg.difficultyDuration

/-- `_updatePlayer` (`part_001:205-243`). `Math.hypot(moveX, moveY) || 1` is
modelled as substituting 1 when the square root evaluates to 0. -/
def updatePlayer (cfg : Config) (dt : ℚ) (input : Intent) (p0 : Player) : Player :=
  let p1 := if 0 < p0.invulnTime then { p0 with invulnTime := max 0 (p0.invulnTime - dt) } else p0
  let speed := if input.dash = true ∧ p1.dashCooldown ≤ 0 then p1.dashSpeed else p1.baseSpeed
  let p2 := if input.dash = true ∧ p1.dashCooldown ≤ 0 then
      { p1 with dashCooldown := cfg.player.dashCooldown } else p1
  let p3 := { p2 with dashCooldown := max 0 (p2.dashCooldown - dt) }
  let moveX0 : ℚ := (if input.left then -1 else 0) + (if input.right then 1 else 0)
  let moveY0 : ℚ := (if input.up then -1 else 0) + (if input.down then 1 else 0)
  let m := cfg.sqrtFn (moveX0 * moveX0 + moveY0 * moveY0)
  let mag := if m = 0 then 1 else m
  let moveX := moveX0 / mag
  let moveY := moveY0 / mag
  let vx := moveX * speed
  let vy := moveY * speed
  let x := p3.x + vx * dt
  let y := p3.y + vy * dt
  { p3 with
    vx := vx
    vy := vy
    x := min (max (p3.radius + 8) x) (cfg.w - p3.radius - 8)
    y := min (max (p3.radius + 8) y) (cfg.h - p3.radius - 8) }

/-- `_currentHazardSpeed` (`part_001:245-260`); `speedIncreasePerSecond || 0`
is the identity on a present numeric field. -/
def currentHazardSpeed (cfg : Config) (st : State) : ℚ :=
  let factor := difficultyFactor cfg st
  let speedMultiplier := 1 + 0.6 * factor
  let base := cfg.hazards.baseSpeed * speedMultiplier
  let linearIncrease := cfg.difficulty.speedIncreasePerSecond * 0.15 * st.timeAlive
  base + linearIncrease

/-- Construction of a single spawned hazard (`part_001:287-333`). -/
def mkHazard (cfg : Config) (st : State) (d : SpawnDraws) : Hazard :=
  let baseSpeed := currentHazardSpeed cfg st
  let speed := baseSpeed + d.speedR * cfg.hazards.randomSpeed
  let drift : ℚ := 40
  let pos :=
    if d.edge = 0 then (d.posR * cfg.w, (-20 : ℚ), (d.driftR - 0.5) * drift, speed)
    else if d.edge = 1 then (cfg.w + 20, d.posR * cfg.h, -speed, (d.driftR - 0.5) * drift)
    else if d.edge = 2 then (d.posR * cfg.w, cfg.h + 20, (d.driftR - 0.5) * drift, -speed)
    else ((-20 : ℚ), d.posR * cfg.h, speed, (d.driftR - 0.5) * drift)
  let sizeFactor := 0.5 + 0.5 * difficultyFactor cfg st
  let baseRadius := 8 + d.radiusR * 8
  let radius := baseRadius * (0.6 + 0.8 * sizeFactor)
  { x := pos.1
    y := pos.2.1
    vx := pos.2.2.1
    vy := pos.2.2.2
    radius := radius
    radiusSq := radius * radius }

/-- Requested spawn count before capping (`part_001:270-277`): starts at 1 and
gains 1 for every survival-time threshold already crossed. -/
def spawnCountRaw (cfg : Config) (st : State) : ℕ :=
  1 + (cfg.difficulty.spawnCountIncreaseTimes.filter (fun t => decide (t ≤ st.timeAlive))).length

/-- The `hCfg.maxOnScreen || 40` fallback (`part_001:279`): 0 is falsy in JS. -/
def resolvedMaxOnScreen (cfg : Config) : ℚ :=
  if cfg.hazards.maxOnScreen = 0 then 40 else cfg.hazards.maxOnScreen

/-- `_spawnHazard` (`part_001:262-335`). A JS `for (i = 0; i < bound; i++)`
loop with a positive (possibly fractional) bound runs `⌈bound⌉` times, hence
the ceiling in the realized iteration count. -/
def spawnHazard (cfg : Config) (draws : ℕ → SpawnDraws) (st : State) : State :=
  let spawnCount := spawnCountRaw cfg st
  let availableSlots : ℚ := max 0 (resolvedMaxOnScreen cfg - st.hazards.length)
  if availableSlots ≤ 0 then st
  else
    let iters : ℕ := (⌈min (spawnCount : ℚ) availableSlots⌉).toNat
    { st with hazards := st.hazards ++ (List.range iters).map (fun i => mkHazard cfg st (draws i)) }

/-- `_updateHazards` (`part_001:337-364`): advance the spawn timer, spawn when
it reaches zero (resetting it to the current spawn interval), then move and
cull hazards. -/
def updateHazards (cfg : Config) (draws : ℕ → SpawnDraws) (dt : ℚ) (st0 : State) : State :=
  let st1 := { st0 with spawnTimer := st0.spawnTimer - dt }
  let st2 :=
    if st1.spawnTimer ≤ 0 then
      let st' := spawnHazard cfg draws st1
      { st' with spawnTimer := st'.spawnInterval }
    else st1
  { st2 with hazards := (st2.hazards.map (moveHazard dt)).filter (keepHazard cfg.w cfg.h) }

/-- Body of the per-hazard loop of `_checkCollisions` (`part_001:409-459`).
The accumulator carries the evolving state and the `hadHit` /
`registeredNearMiss` flags. -/
def collideStep (cfg : Config) (acc : State × Bool × Bool) (hzd : Hazard) :
    State × Bool × Bool :=
  let st := acc.1
  let p := st.player
  let dx := hzd.x - p.x
  let dy := hzd.y - p.y
  let distSq := dx * dx + dy * dy
  let r := hzd.radius + p.radius
  if distSq ≤ r * r then
    if p.invulnTime ≤ 0 then
      let p' := { p with
        health := max 0 (p.health - cfg.hazards.damagePerHit)
        invulnTime := 0.45 }
      let st' := { st with
        player := p'
        lastHitTime := st.time
        pulses := registerPulse p.x p.y "rgba(255, 90, 120, 0.9)" (p.radius + 32) 0.32 3.5 st.pulses }
      (if p'.health ≤ 0 then
        { st' with state := RunState.gameover, bestTime := max st'.bestTime st'.timeAlive }
       else st', true, acc.2.2)
    else acc
  else
    let nearR := r + 14
    if distSq ≤ nearR * nearR then
      let st' := { st with lastNearMissTime := st.time }
      let st'' :=
        if 0.09 < st'.time - st'.lastNearMissPulseTime then
          { st' with
            lastNearMissPulseTime := st'.time
            pulses := registerPulse p.x p.y "rgba(245, 215, 110, 0.8)" (p.radius + 20) 0.24 2.4 st'.pulses }
        else st'
      (st'', acc.2.1, true)
    else acc

/-- `_checkCollisions` (`part_001:393-468`). -/
def checkCollisions (cfg : Config) (st : State) : State :=
  if st.player.health ≤ 0 then st
  else
    let r := st.hazards.foldl (collideStep cfg) (st, false, false)
    let st' := r.1
    if r.2.1 = true then { st' with nearMissStreak := 0 }
    else if r.2.2 = true then { st' with nearMissStreak := min (st'.nearMissStreak + 1) 99 }
    else st'

/-- `update` (`part_001:176-203`): the full survival tick. -/
def update (cfg : Config) (draws : ℕ → SpawnDraws) (dt : ℚ) (input : Intent)
    (st0 : State) : State :=
  let st1 := { st0 with time := st0.time + dt }
  let st2 := { st1 with pulses := updatePulses dt st1.pulses }
  if st2.state ≠ RunState.playing then st2
  else
    let st3 := { st2 with timeAlive := st2.timeAlive + dt }
    let factor := difficultyFactor cfg st3
    let st4 := { st3 with spawnInterval :=
      cfg.hazards.baseSpawnInterval +
        (cfg.hazards.minSpawnInterval - cfg.hazards.baseSpawnInterval) * easeSmooth factor }
    let st5 := { st4 with player := updatePlayer cfg dt input st4.player }
    let st6 := updateHazards cfg draws dt st5
    checkCollisions cfg st6

/-- Built-in default configuration of the survival mini-game
(`part_001:9-34`, `part_001:73`, canvas fallback 800×600). -/
def defaultConfig : Config where
  player := { maxHealth := 100, dashCooldown := 0.6, baseSpeed := 180, dashSpeed := 360 }
  hazards := { baseSpawnInterval := 1.4
               minSpawnInterval := 0.4
               spawnIntervalDecayPerSecond := 0.05
               baseSpeed := 80
               randomSpeed := 140
               damagePerHit := 20
               maxOnScreen := 42 }
  difficulty := { speedIncreasePerSecond := 10, spawnCountIncreaseTimes := [12, 24, 36] }
  w := 800
  h := 600
  difficultyDuration := 60
  sqrtFn := ratSqrt

/-- Initial player of the survival mini-game (`part_001:37-49`). -/
def initialPlayer : Player where
  x := 200
  y := 200
  vx := 0
  vy := 0
  radius := 16
  baseSpeed := 180
  dashSpeed := 360
  dashCooldown := 0
  maxHealth := 100
  health := 100
  invulnTime := 0

/-- Initial state of the survival mini-game (constructor, `part_001:37-87`). -/
def initialState : State where
  player := initialPlayer
  hazards := []
  spawnTimer := 0
  spawnInterval := 1.4
  state := RunState.intro
  time := 0
  timeAlive := 0
  bestTime := 0
  lastHitTime := -999
  lastNearMissTime := -999
  lastNearMissPulseTime := -999
  nearMissStreak := 0
  pulses := []

end Mini

namespace Orch

/-- Player config group (`ractr_state.js:127-140`). -/
structure PlayerCfg where
  maxHealth : ℚ
  dashCooldown : ℚ
  baseSpeed : ℚ
  dashSpeed : ℚ
  baseMaxMana : ℚ
  baseAttackPower : ℚ
  baseDefense : ℚ
  baseCritChance : ℚ
  baseXpPerSecondSurvived : ℚ
  baseStrength : ℚ
  baseAgility : ℚ
  baseIntelligence : ℚ
  deriving DecidableEq

/-- Hazards config group (`ractr_state.js:141-150`). -/
structure HazardsCfg where
  baseSpawnInterval : ℚ
  minSpawnInterval : ℚ
  spawnIntervalDecayPerSecond : ℚ
  baseSpeed : ℚ
  randomSpeed : ℚ
  damagePerHit : ℚ
  maxOnScreen : ℚ
  xpOnHitTaken : ℚ
  deriving DecidableEq

/-- Difficulty config group (`ractr_state.js:151-154`). -/
structure DifficultyCfg where
  speedIncreasePerSecond : ℚ
  spawnCountIncreaseTimes : List ℚ
  deriving DecidableEq

/-- Progression config group (`ractr_state.js:160-170`). `xpLevelExponent`
only feeds `Math.pow(clampedLevel - 1, exp)` in `_computeXpForLevel`
(`ractr_state.js:929-934`); that power is not rational-valued, so it is
carried as the abstract function `powFn`. -/
structure ProgCfg where
  baseXpToLevel : ℚ
  powFn : ℚ → ℚ
  hpPerLevel : ℚ
  manaPerLevel : ℚ
  attackPerLevel : ℚ
  defensePerLevel : ℚ
  strengthPerLevel : ℚ
  agilityPerLevel : ℚ
  intelligencePerLevel : ℚ

/-- Static environment of the orchestrator (`ractr_state.js:126-184`), plus
canvas dimensions, the `difficultyDuration` field (`ractr_state.js:214`) and
the abstract square root behind `Math.hypot`. -/
structure Config where
  player : PlayerCfg
  hazards : HazardsCfg
  difficulty : DifficultyCfg
  progression : ProgCfg
  w : ℚ
  h : ℚ
  difficultyDuration : ℚ
  sqrtFn : ℚ → ℚ

/-- Player record as initialized by `RactrPlayerState` /
`_createInitialPlayer` (`ractr_state.js:5-49`, `ractr_state.js:275-330`);
inert identity fields (id, name, classId, inventory, zoneId) are omitted. -/
structure Player where
  x : ℚ
  y : ℚ
  vx : ℚ
  vy : ℚ
  radius : ℚ
  baseSpeed : ℚ
  dashSpeed : ℚ
  dashCooldown : ℚ
  invulnTime : ℚ
  maxHealth : ℚ
  health : ℚ
  maxMana : ℚ
  mana : ℚ
  level : ℚ
  xp : ℚ
  xpToNext : ℚ
  strength : ℚ
  agility : ℚ
  intelligence : ℚ
  attackPower : ℚ
  defense : ℚ
  critChance : ℚ
  gold : ℚ
  deriving DecidableEq

/-- Mutable simulation state of the orchestrator: the flattened union of the
orchestrator's own fields and its `gameState` container
(`ractr_state.js:186-227`, `ractr_state.js:89-107`). The optional ui, audio
and net collaborators are absent in the modelled deployment and all their
call sites are no-ops. -/
structure State where
  player : Player
  hazards : List Hazard
  spawnTimer : ℚ
  spawnInterval : ℚ
  state : RunState
  time : ℚ
  timeAlive : ℚ
  bestTime : ℚ
  lastHitTime : ℚ
  lastNearMissTime : ℚ
  lastNearMissPulseTime : ℚ
  nearMissStreak : ℚ
  pulses : List Pulse
  deriving DecidableEq

/-- `_difficultyFactor` (`ractr_state.js:562-566`); the `this.gameState ?`
guard is moot since the game state always exists in the model. -/
def difficultyFactor (cfg : Config) (st : State) : ℚ :=
  max 0 (min cfg.difficultyDuration st.timeAlive) / cfg.difficultyDuration

/-- The `(progCfg && progCfg.baseXpToLevel) || 100` fallback
(`ractr_state.js:930`): 0 is falsy in JS. -/
def resolvedBaseXp (prog : ProgCfg) : ℚ :=
  if prog.baseXpToLevel = 0 then 100 else prog.baseXpToLevel

/-- `_computeXpForLevel` (`ractr_state.js:929-934`):
`floor(base * pow(max(1, level) - 1, exp)) + base`. -/
def computeXpForLevel (prog : ProgCfg) (level : ℚ) : ℚ :=
  let base := resolvedBaseXp prog
  ((⌊base * prog.powFn (max 1 level - 1)⌋ : ℤ) : ℚ) + base

/-- Body of the `while (p.xp >= p.xpToNext)` loop of `_grantXp`
(`ractr_state.js:944-985`): one level-up with its stat growth,
partial health/mana refill (clamped to the new maxima) and threshold
recomputation. The per-level pulse and the audio/net notifications are
cosmetic collaborator calls and are omitted. -/
def levelUpOnce (prog : ProgCfg) (p : Player) : Player :=
  let strGain := prog.strengthPerLevel
  let agiGain := prog.agilityPerLevel
  let intGain := prog.intelligencePerLevel
  let hpGain := prog.hpPerLevel
  let manaGain := prog.manaPerLevel
  let atkGain := prog.attackPerLevel
  let defGain := prog.defensePerLevel
  let p1 := { p with
    xp := p.xp - p.xpToNext
    level := p.level + 1
    strength := p.strength + strGain
    agility := p.agility + agiGain
    intelligence := p.intelligence + intGain }
  let p2 := { p1 with
    maxHealth := p1.maxHealth + hpGain + jround (strGain * 1.5)
    maxMana := p1.maxMana + manaGain + jround (intGain * 1.2)
    attackPower := p1.attackPower + atkGain + jround (strGain * 0.6) + jround (agiGain * 0.2)
    defense := p1.defense + defGain + jround (strGain * 0.3)
    critChance := p1.critChance + agiGain * 0.001 }
  let p3 := { p2 with
    health := min p2.maxHealth (p2.health + max 5 hpGain)
    mana := min p2.maxMana (p2.mana + max 3 manaGain) }
  { p3 with xpToNext := computeXpForLevel prog (p3.level + 1) }

/-- Fuel-bounded form of the `while (p.xp >= p.xpToNext)` loop of `_grantXp`
(`ractr_state.js:944-985`). -/
def levelLoop (prog : ProgCfg) : ℕ → Player → Player
  | 0, p => p
  | Nat.succ fuel, p =>
    if p.xpToNext ≤ p.xp then levelLoop prog fuel (levelUpOnce prog p) else p

/-- Iteration bound for the level-up loop: every iteration consumes at least
`min (resolvedBaseXp prog) p.xpToNext` experience whenever the thresholds are
positive (recomputed thresholds are at least the base), so this fuel is
sufficient for the loop to reach its exit condition; this is proved below and
the bound is never reached under the documented preconditions. -/
def grantFuel (prog : ProgCfg) (p : Player) : ℕ :=
  (⌈p.xp / min (resolvedBaseXp prog) p.xpToNext⌉).toNat + 1

/-- `_grantXp` (`ractr_state.js:936-990`). -/
def grantXp (prog : ProgCfg) (amount : ℚ) (p : Player) : Player :=
  if amount ≤ 0 then p
  else
    let p1 := { p with xp := p.xp + amount }
    levelLoop prog (grantFuel prog p1) p1

/-- `_updatePlayer` (`ractr_state.js:630-672`); identical to the survival
mini-game's integrator, with an extra no-op audio hook on dash. -/
def updatePlayer (cfg : Config) (dt : ℚ) (input : Intent) (p0 : Player) : Player :=
  let p1 := if 0 < p0.invulnTime then { p0 with invulnTime := max 0 (p0.invulnTime - dt) } else p0
  let speed := if input.dash = true ∧ p1.dashCooldown ≤ 0 then p1.dashSpeed else p1.baseSpeed
  let p2 := if input.dash = true ∧ p1.dashCooldown ≤ 0 then
      { p1 with dashCooldown := cfg.player.dashCooldown } else p1
  let p3 := { p2 with dashCooldown := max 0 (p2.dashCooldown - dt) }
  let moveX0 : ℚ := (if input.left then -1 else 0) + (if input.right then 1 else 0)
  let moveY0 : ℚ := (if input.up then -1 else 0) + (if input.down then 1 else 0)
  let m := cfg.sqrtFn (moveX0 * moveX0 + moveY0 * moveY0)
  let mag := if m = 0 then 1 else m
  let moveX := moveX0 / mag
  let moveY := moveY0 / mag
  let vx := moveX * speed
  let vy := moveY * speed
  let x := p3.x + vx * dt
  let y := p3.y + vy * dt
  { p3 with
    vx := vx
    vy := vy
    x := min (max (p3.radius + 8) x) (cfg.w - p3.radius - 8)
    y := min (max (p3.radius + 8) y) (cfg.h - p3.radius - 8) }

/-- `_currentHazardSpeed` (`ractr_state.js:674-687`). -/
def currentHazardSpeed (cfg : Config) (st : State) : ℚ :=
  let factor := difficultyFactor cfg st
  let speedMultiplier := 1 + 0.6 * factor
  let base := cfg.hazards.baseSpeed * speedMultiplier
  let linearIncrease := cfg.difficulty.speedIncreasePerSecond * 0.15 * st.timeAlive
  base + linearIncrease

/-- Construction of a single spawned hazard (`ractr_state.js:714-758`). -/
def mkHazard (cfg : Config) (st : State) (d : SpawnDraws) : Hazard :=
  let baseSpeed := currentHazardSpeed cfg st
  let speed := baseSpeed + d.speedR * cfg.hazards.randomSpeed
  let drift : ℚ := 40
  let pos :=
    if d.edge = 0 then (d.posR * cfg.w, (-20 : ℚ), (d.driftR - 0.5) * drift, speed)
    else if d.edge = 1 then (cfg.w + 20, d.posR * cfg.h, -speed, (d.driftR - 0.5) * drift)
    else if d.edge = 2 then (d.posR * cfg.w, cfg.h + 20, (d.driftR - 0.5) * drift, -speed)
    else ((-20 : ℚ), d.posR * cfg.h, speed, (d.driftR - 0.5) * drift)
  let sizeFactor := 0.5 + 0.5 * difficultyFactor cfg st
  let baseRadius := 8 + d.radiusR * 8
  let radius := baseRadius * (0.6 + 0.8 * sizeFactor)
  { x := pos.1
    y := pos.2.1
    vx := pos.2.2.1
    vy := pos.2.2.2
    radius := radius
    radiusSq := radius * radius }

/-- Requested spawn count before capping (`ractr_state.js:697-704`). -/
def spawnCountRaw (cfg : Config) (st : State) : ℕ :=
  1 + (cfg.difficulty.spawnCountIncreaseTimes.filter (fun t => decide (t ≤ st.timeAlive))).length

/-- The `hCfg.maxOnScreen || 40` fallback (`ractr_state.js:706`). -/
def resolvedMaxOnScreen (cfg : Config) : ℚ :=
  if cfg.hazards.maxOnScreen = 0 then 40 else cfg.hazards.maxOnScreen

/-- `_spawnHazard` (`ractr_state.js:689-760`); as in the mini-game, a JS
`for` loop with a positive fractional bound runs `⌈bound⌉` times. -/
def spawnHazard (cfg : Config) (draws : ℕ → SpawnDraws) (st : State) : State :=
  let spawnCount := spawnCountRaw cfg st
  let availableSlots : ℚ := max 0 (resolvedMaxOnScreen cfg - st.hazards.length)
  if availableSlots ≤ 0 then st
  else
    let iters : ℕ := (⌈min (spawnCount : ℚ) availableSlots⌉).toNat
    { st with hazards := st.hazards ++ (List.range iters).map (fun i => mkHazard cfg st (draws i)) }

/-- `_updateHazards` (`ractr_state.js:762-792`). -/
def updateHazards (cfg : Config) (draws : ℕ → SpawnDraws) (dt : ℚ) (st0 : State) : State :=
  let st1 := { st0 with spawnTimer := st0.spawnTimer - dt }
  let st2 :=
    if st1.spawnTimer ≤ 0 then
      let st' := spawnHazard cfg draws st1
      { st' with spawnTimer := st'.spawnInterval }
    else st1
  { st2 with hazards := (st2.hazards.map (moveHazard dt)).filter (keepHazard cfg.w cfg.h) }

/-- Body of the per-hazard loop of `_checkCollisions`
(`ractr_state.js:843-908`); `bestTime || 0` and `timeAlive || 0` are the
identity on present numeric fields. -/
def collideStep (cfg : Config) (acc : State × Bool × Bool) (hzd : Hazard) :
    State × Bool × Bool :=
  let st := acc.1
  let p := st.player
  let dx := hzd.x - p.x
  let dy := hzd.y - p.y
  let distSq := dx * dx + dy * dy
  let r := hzd.radius + p.radius
  if distSq ≤ r * r then
    if p.invulnTime ≤ 0 then
      let p' := { p with
        health := max 0 (p.health - cfg.hazards.damagePerHit)
        invulnTime := 0.45 }
      let st' := { st with
        player := p'
        lastHitTime := st.time
        pulses := registerPulse p.x p.y "rgba(255, 90, 120, 0.9)" (p.radius + 32) 0.32 3.5 st.pulses }
      (if p'.health ≤ 0 then
        { st' with state := RunState.gameover, bestTime := max st'.bestTime st'.timeAlive }
       else st', true, acc.2.2)
    else acc
  else
    let nearR := r + 14
    if distSq ≤ nearR * nearR then
      let st' := { st with lastNearMissTime := st.time }
      let st'' :=
        if 0.09 < st'.time - st'.lastNearMissPulseTime then
          { st' with
            lastNearMissPulseTime := st'.time
            pulses := registerPulse p.x p.y "rgba(245, 215, 110, 0.8)" (p.radius + 20) 0.24 2.4 st'.pulses }
        else st'
      (st'', acc.2.1, true)
    else acc

/-- `_checkCollisions` (`ractr_state.js:828-919`): the per-hazard pass, then
the near-miss streak update and the consolation-experience grant on a hit
(`xpOnHitTaken || 0` is the identity on a present numeric field). -/
def checkCollisions (cfg : Config) (st : State) : State :=
  if st.player.health ≤ 0 then st
  else
    let r := st.hazards.foldl (collideStep cfg) (st, false, false)
    let st' := r.1
    if r.2.1 = true then
      let st'' := { st' with nearMissStreak := 0 }
      let xpOnHit := cfg.hazards.xpOnHitTaken
      if 0 < xpOnHit then
        { st'' with player := grantXp cfg.progression xpOnHit st''.player }
      else st''
    else if r.2.2 = true then { st' with nearMissStreak := min (st'.nearMissStreak + 1) 99 }
    else st'

/-- `_updatePlayerProgression` (`ractr_state.js:921-927`): passive experience
trickle while alive. -/
def updatePlayerProgression (cfg : Config) (dt : ℚ) (st : State) : State :=
  let xpRate := cfg.player.baseXpPerSecondSurvived
  if 0 < xpRate then { st with player := grantXp cfg.progression (xpRate * dt) st.player }
  else st

/-- `update` (`ractr_state.js:572-628`): the full orchestrator tick. The
trailing net/ui/audio notifications and the `syncFromSnapshot` branch are
no-ops (absent collaborators, and `RactrGameState` has no `syncFromSnapshot`
method). -/
def update (cfg : Config) (draws : ℕ → SpawnDraws) (dt : ℚ) (input : Intent)
    (st0 : State) : State :=
  let st1 := { st0 with time := st0.time + dt }
  let st2 := { st1 with pulses := updatePulses dt st1.pulses }
  if st2.state ≠ RunState.playing then st2
  else
    let st3 := { st2 with timeAlive := st2.timeAlive + dt }
    let factor := difficultyFactor cfg st3
    let st4 := { st3 with spawnInterval :=
      cfg.hazards.baseSpawnInterval +
        (cfg.hazards.minSpawnInterval - cfg.hazards.baseSpawnInterval) * easeSmooth factor }
    let st5 := { st4 with player := updatePlayer cfg dt input st4.player }
    let st6 := updateHazards cfg draws dt st5
    let st7 := checkCollisions cfg st6
    updatePlayerProgression cfg dt st7

/-- Built-in default progression config (`ractr_state.js:160-170`), with the
power function as a parameter. -/
def defaultProgression (powFn : ℚ → ℚ) : ProgCfg where
  baseXpToLevel := 100
  powFn := powFn
  hpPerLevel := 10
  manaPerLevel := 5
  attackPerLevel := 2
  defensePerLevel := 1
  strengthPerLevel := 1
  agilityPerLevel := 1
  intelligencePerLevel := 1

/-- Built-in default orchestrator configuration (`ractr_state.js:126-184`,
`ractr_state.js:214`, canvas fallback 800×600). -/
def defaultConfig (sqrtFn powFn : ℚ → ℚ) : Config where
  player := { maxHealth := 100
              dashCooldown := 0.6
              baseSpeed := 180
              dashSpeed := 360
              baseMaxMana := 50
              baseAttackPower := 10
              baseDefense := 2
              baseCritChance := 0.05
              baseXpPerSecondSurvived := 1
              baseStrength := 10
              baseAgility := 10
              baseIntelligence := 10 }
  hazards := { baseSpawnInterval := 1.4
               minSpawnInterval := 0.5
               spawnIntervalDecayPerSecond := 0.05
               baseSpeed := 80
               randomSpeed := 140
               damagePerHit := 20
               maxOnScreen := 40
               xpOnHitTaken := 2 }
  difficulty := { speedIncreasePerSecond := 10, spawnCountIncreaseTimes := [10, 20, 30] }
  progression := defaultProgression powFn
  w := 800
  h := 600
  difficultyDuration := 60
  sqrtFn := sqrtFn

/-- Initial player of the orchestrator (`RactrPlayerState`,
`ractr_state.js:5-49`, under the built-in defaults). -/
def initialPlayer : Player where
  x := 200
  y := 200
  vx := 0
  vy := 0
  radius := 16
  baseSpeed := 180
  dashSpeed := 360
  dashCooldown := 0
  invulnTime := 0
  maxHealth := 100
  health := 100
  maxMana := 50
  mana := 50
  level := 1
  xp := 0
  xpToNext := 100
  strength := 10
  agility := 10
  intelligence := 10
  attackPower := 10
  defense := 2
  critChance := 0.05
  gold := 0

/-- Initial orchestrator state (`ractr_state.js:89-107`, `186-227`). -/
def initialState : State where
  player := initialPlayer
  hazards := []
  spawnTimer := 0
  spawnInterval := 1.4
  state := RunState.intro
  time := 0
  timeAlive := 0
  bestTime := 0
  lastHitTime := -999
  lastNearMissTime := -999
  lastNearMissPulseTime := -999
  nearMissStreak := 0
  pulses := []

end Orch

namespace Town

/-- Player record of the town variant (`ractr_game.js:30-59`). The inert
identity fields (name, classId) are omitted. -/
structure Player where
  x : ℚ
  y : ℚ
  vx : ℚ
  vy : ℚ
  radius : ℚ
  baseSpeed : ℚ
  dashSpeed : ℚ
  dashCooldown : ℚ
  dashCooldownMax : ℚ
  level : ℚ
  xp : ℚ
  xpToNext : ℚ
  maxHealth : ℚ
  health : ℚ
  maxMana : ℚ
  mana : ℚ
  strength : ℚ
  agility : ℚ
  intelligence : ℚ
  attackPower : ℚ
  defense : ℚ
  critChance : ℚ
  gold : ℚ
  facingAngle : ℚ
  deriving DecidableEq

/-- Static environment of the town player integrator: the town rectangle
computed by `_getTownRect` (`ractr_game.js:403-420`), the abstract square
root behind `Math.hypot` and the abstract `Math.atan2`. -/
structure Env where
  minX : ℚ
  maxX : ℚ
  minY : ℚ
  maxY : ℚ
  sqrtFn : ℚ → ℚ
  atan2Fn : ℚ → ℚ → ℚ

/-- Movement/dash/facing block of the town `_updatePlayer`
(`ractr_game.js:264-289`), applied after the cooldown decay. -/
def dashAndMove (env : Env) (dt : ℚ) (input : Intent) (p1 : Player) : Player :=
  let moveX0 : ℚ := (if input.left then -1 else 0) + (if input.right then 1 else 0)
  let moveY0 : ℚ := (if input.up then -1 else 0) + (if input.down then 1 else 0)
  let m := env.sqrtFn (moveX0 * moveX0 + moveY0 * moveY0)
  let mag := if m = 0 then 1 else m
  let moveX := moveX0 / mag
  let moveY := moveY0 / mag
  let speed := if input.dash = true ∧ p1.dashCooldown ≤ 0 then p1.dashSpeed else p1.baseSpeed
  let p2 := if input.dash = true ∧ p1.dashCooldown ≤ 0 then
      { p1 with dashCooldown := p1.dashCooldownMax } else p1
  let vx := moveX * speed
  let vy := moveY * speed
  let p3 := { p2 with
    vx := vx
    vy := vy
    x := p2.x + vx * dt
    y := p2.y + vy * dt }
  if moveX ≠ 0 ∨ moveY ≠ 0 then { p3 with facingAngle := env.atan2Fn moveY moveX } else p3

/-- Clamp-to-town-rectangle block of the town `_updatePlayer`
(`ractr_game.js:291-297`): four sequential one-sided clamps. -/
def clampToRect (env : Env) (p4 : Player) : Player :=
  let r := p4.radius
  let p5 := if p4.x < env.minX + r then { p4 with x := env.minX + r } else p4
  let p6 := if env.maxX - r < p5.x then { p5 with x := env.maxX - r } else p5
  let p7 := if p6.y < env.minY + r then { p6 with y := env.minY + r } else p6
  if env.maxY - r < p7.y then { p7 with y := env.maxY - r } else p7

/-- `_updatePlayer` of the town variant (`ractr_game.js:257-298`): cooldown
decay precedes the dash check here, and there is no decay after it. -/
def updatePlayer (env : Env) (dt : ℚ) (input : Intent) (p0 : Player) : Player :=
  let p1 := if 0 < p0.dashCooldown then { p0 with dashCooldown := max 0 (p0.dashCooldown - dt) } else p0
  clampToRect env (dashAndMove env dt input p1)

/-- Body of the `while (p.xp >= p.xpToNext)` loop of the town `_grantXp`
(`ractr_game.js:343-364`): flat stat growth, full health/mana refill, and
`xpToNext = floor(120 * pow(level, 1.25)) + 40` from the incremented level
(`Math.pow(·, 1.25)` carried as the abstract `powFn`). The chat-log line is
cosmetic and omitted. -/
def levelUpOnce (powFn : ℚ → ℚ) (p : Player) : Player :=
  let p1 := { p with
    xp := p.xp - p.xpToNext
    level := p.level + 1
    maxHealth := p.maxHealth + 10
    maxMana := p.maxMana + 4
    strength := p.strength + 1
    agility := p.agility + 1
    intelligence := p.intelligence + 1
    attackPower := p.attackPower + 2
    defense := p.defense + 1
    critChance := p.critChance + 0.003 }
  let p2 := { p1 with health := p1.maxHealth, mana := p1.maxMana }
  { p2 with xpToNext := ((⌊(120 : ℚ) * powFn p2.level⌋ : ℤ) : ℚ) + 40 }

/-- Fuel-bounded form of the town level-up loop. -/
def levelLoop (powFn : ℚ → ℚ) : ℕ → Player → Player
  | 0, p => p
  | Nat.succ fuel, p =>
    if p.xpToNext ≤ p.xp then levelLoop powFn fuel (levelUpOnce powFn p) else p

/-- Iteration bound for the town level-up loop: recomputed thresholds are at
least 40, so every iteration consumes at least `min 40 p.xpToNext`
experience when the thresholds are positive. -/
def grantFuel (p : Player) : ℕ :=
  (⌈p.xp / min 40 p.xpToNext⌉).toNat + 1

/-- `_grantXp` of the town variant (`ractr_game.js:340-365`): note there is
no `amount <= 0` guard in this variant. -/
def grantXp (powFn : ℚ → ℚ) (amount : ℚ) (p : Player) : Player :=
  let p1 := { p with xp := p.xp + amount }
  levelLoop powFn (grantFuel p1) p1

/-- Initial player of the town variant (`ractr_game.js:30-59`). -/
def initialPlayer : Player where
  x := 0
  y := 0
  vx := 0
  vy := 0
  radius := 14
  baseSpeed := 150
  dashSpeed := 280
  dashCooldown := 0
  dashCooldownMax := 0.65
  level := 1
  xp := 0
  xpToNext := 120
  maxHealth := 120
  health := 120
  maxMana := 60
  mana := 60
  strength := 10
  agility := 11
  intelligence := 9
  attackPower := 15
  defense := 3
  critChance := 0.05
  gold := 12
  facingAngle := 0

end Town

namespace Arpg

/-- Player record of the ARPG variant (`part_001:858-889`); inert identity
fields (name, classId) are omitted. -/
structure Player where
  x : ℚ
  y : ℚ
  vx : ℚ
  vy : ℚ
  radius : ℚ
  baseSpeed : ℚ
  dashSpeed : ℚ
  dashCooldown : ℚ
  dashCooldownMax : ℚ
  invulnTime : ℚ
  maxHealth : ℚ
  health : ℚ
  maxMana : ℚ
  mana : ℚ
  level : ℚ
  xp : ℚ
  xpToNext : ℚ
  strength : ℚ
  agility : ℚ
  intelligence : ℚ
  attackPower : ℚ
  defense : ℚ
  critChance : ℚ
  gold : ℚ
  facingAngle : ℚ
  attackCooldown : ℚ
  attackCooldownMax : ℚ
  deriving DecidableEq

/-- Mob record (`RactrMob`, `part_001:702-732`), restricted to the fields
read or written by the collision/damage path (`alive`, position, radius,
`contactDamage`, health, `hitFlash`); the wander/aggro movement fields are
only used by `RactrMob.update`, which is not modelled here. -/
structure Mob where
  x : ℚ
  y : ℚ
  radius : ℚ
  maxHealth : ℚ
  health : ℚ
  contactDamage : ℚ
  hitFlash : ℚ
  alive : Bool
  deriving DecidableEq

/-- Mutable state of the ARPG variant restricted to the run/damage path
(`part_001:823-826`, `944-967`): player, mobs, lifecycle state, run timers
and pulses. -/
structure State where
  player : Player
  mobs : List Mob
  state : RunState
  time : ℚ
  runTime : ℚ
  bestTime : ℚ
  lastHitTime : ℚ
  lastKillTime : ℚ
  pulses : List Pulse
  deriving DecidableEq

/-- `_endRun` (`part_001:1016-1019`). -/
def endRun (st : State) : State :=
  { st with state := RunState.dead, bestTime := max st.bestTime st.runTime }

/-- `_dealDamageToPlayer` (`part_001:1227-1239`): defense mitigation floored
at 1 damage, health clamped at zero, and the run ends when health reaches
zero. -/
def dealDamageToPlayer (st : State) (amount : ℚ) : State :=
  let p := st.player
  let mitigated := max 0 (amount - p.defense * 0.5)
  let final := max 1 (jround mitigated)
  let p' := { p with health := max 0 (p.health - final) }
  let st' := { st with
    player := p'
    pulses := registerPulse p.x p.y "rgba(255, 60, 90, 0.9)" (p.radius + 38) 0.45 4 st.pulses
    lastHitTime := st.time }
  if p'.health ≤ 0 then endRun st' else st'

/-- Body of the mob→player loop of `_handleCollisions` (`part_001:1189-1204`):
note the effective hit radius is `mob.radius + p.radius * 0.8`, the distance
is compared with `<=`, and `mob.contactDamage || 10` falls back on a zero
(falsy) field. -/
def mobContactStep (sqrtFn : ℚ → ℚ) (acc : State) (mob : Mob) : State :=
  if mob.alive = false then acc
  else
    let p := acc.player
    let dx := mob.x - p.x
    let dy := mob.y - p.y
    let dist := sqrtFn (dx * dx + dy * dy)
    let r := mob.radius + p.radius * 0.8
    if dist ≤ r then
      if p.invulnTime ≤ 0 then
        let damage := if mob.contactDamage = 0 then 10 else mob.contactDamage
        let st' := dealDamageToPlayer acc damage
        { st' with
          player := { st'.player with invulnTime := 0.7 }
          lastHitTime := st'.time }
      else acc
    else acc

/-- Mob→player phase of `_handleCollisions` (`part_001:1183-1204`): the
early return on a dead player, then the per-mob contact loop. The
projectile→mob phase (`part_001:1206-1224`) is a separate loop that never
touches the player's health or the run state and is not needed here. -/
def handleMobContacts (sqrtFn : ℚ → ℚ) (st : State) : State :=
  if st.player.health ≤ 0 then st
  else st.mobs.foldl (mobContactStep sqrtFn) st

/-- Body of the `while (p.xp >= p.xpToNext)` loop of the ARPG `_grantXp`
(`part_001:1264-1299`): fixed per-level gains, full health/mana refill, and
`xpToNext = floor(130 * pow(level, 1.28)) + 60` from the incremented level
(`Math.pow(·, 1.28)` carried as the abstract `powFn`). The level-up pulse is
cosmetic and omitted. -/
def levelUpOnce (powFn : ℚ → ℚ) (p : Player) : Player :=
  let hpGain : ℚ := 14
  let manaGain : ℚ := 6
  let strGain : ℚ := 2
  let agiGain : ℚ := 2
  let intGain : ℚ := 1
  let p1 := { p with
    xp := p.xp - p.xpToNext
    level := p.level + 1
    strength := p.strength + strGain
    agility := p.agility + agiGain
    intelligence := p.intelligence + intGain }
  let p2 := { p1 with
    maxHealth := p1.maxHealth + hpGain + jround (strGain * 1.3)
    maxMana := p1.maxMana + manaGain + jround (intGain * 1.1)
    attackPower := p1.attackPower + 3 + jround (strGain * 0.7)
    defense := p1.defense + 1 + jround (strGain * 0.3)
    critChance := p1.critChance + agiGain * 0.003 }
  let p3 := { p2 with health := p2.maxHealth, mana := p2.maxMana }
  { p3 with xpToNext := ((⌊(130 : ℚ) * powFn p3.level⌋ : ℤ) : ℚ) + 60 }

/-- Fuel-bounded form of the ARPG level-up loop. -/
def levelLoop (powFn : ℚ → ℚ) : ℕ → Player → Player
  | 0, p => p
  | Nat.succ fuel, p =>
    if p.xpToNext ≤ p.xp then levelLoop powFn fuel (levelUpOnce powFn p) else p

/-- Iteration bound for the ARPG level-up loop: recomputed thresholds are at
least 60, so every iteration consumes at least `min 60 p.xpToNext`
experience when the thresholds are positive. -/
def grantFuel (p : Player) : ℕ :=
  (⌈p.xp / min 60 p.xpToNext⌉).toNat + 1

/-- `_grantXp` of the ARPG variant (`part_001:1260-1300`): note there is no
`amount <= 0` guard in this variant. -/
def grantXp (powFn : ℚ → ℚ) (amount : ℚ) (p : Player) : Player :=
  let p1 := { p with xp := p.xp + amount }
  levelLoop powFn (grantFuel p1) p1

/-- Initial player of the ARPG variant (`part_001:858-889`). -/
def initialPlayer : Player where
  x := 0
  y := 0
  vx := 0
  vy := 0
  radius := 16
  baseSpeed := 185
  dashSpeed := 360
  dashCooldown := 0
  dashCooldownMax := 0.55
  invulnTime := 0
  maxHealth := 120
  health := 120
  maxMana := 60
  mana := 60
  level := 1
  xp := 0
  xpToNext := 130
  strength := 10
  agility := 12
  intelligence := 9
  attackPower := 14
  defense := 3
  critChance := 0.06
  gold := 0
  facingAngle := 0
  attackCooldown := 0
  attackCooldownMax := 0.45

end Arpg

/-! ## Helper lemmas -/

/-- Folding a step function that preserves a predicate preserves it over the
whole list. -/
lemma foldlPreserves {α β : Type} (P : α → Prop) (f : α → β → α)
    (h : ∀ a b, P a → P (f a b)) :
    ∀ (l : List β) (a : α), P a → P (List.foldl f a l) := by
  intro l
  induction l with
  | nil => intro a ha; simpa using ha
  | cons b t ih =>
    intro a ha
    simpa using ih (f a b) (h a b ha)

lemma jround_nonneg {q : ℚ} (h : 0 ≤ q) : 0 ≤ jround q := by
  unfold jround
  have : (0 : ℤ) ≤ ⌊q + 1 / 2⌋ := Int.floor_nonneg.mpr (by linarith)
  exact_mod_cast this

/-- Numerator of the clamped difficulty ramp is nonnegative and at most the
ramp duration. -/
lemma clampDiv_nonneg (dur t : ℚ) (h : 0 < dur) : 0 ≤ max 0 (min dur t) / dur :=
  div_nonneg (le_max_left 0 _) h.le

lemma clampDiv_le_one (dur t : ℚ) (h : 0 < dur) : max 0 (min dur t) / dur ≤ 1 :=
  (div_le_one h).mpr (max_le h.le (min_le_left dur t))

lemma clampDiv_zero (dur : ℚ) (h : 0 < dur) : max 0 (min dur 0) / dur = 0 := by
  rw [min_eq_right h.le, max_self, zero_div]

lemma clampDiv_one (dur t : ℚ) (h : 0 < dur) (ht : dur ≤ t) :
    max 0 (min dur t) / dur = 1 := by
  rw [min_eq_left ht, max_eq_right h.le, div_self h.ne']

lemma clampDiv_mono (dur t t' : ℚ) (h : 0 < dur) (ht : t ≤ t') :
    max 0 (min dur t) / dur ≤ max 0 (min dur t') / dur := by
  have hnum : max 0 (min dur t) ≤ max 0 (min dur t') :=
    max_le_max le_rfl (min_le_min le_rfl ht)
  exact (div_le_div_iff_of_pos_right h).mpr hnum

/-! ## Field-preservation lemmas for the survival tick pipelines -/

lemma mini_updatePlayer_health (cfg : Mini.Config) (dt : ℚ) (input : Intent)
    (p : Mini.Player) :
    (Mini.updatePlayer cfg dt input p).health = p.health
    ∧ (Mini.updatePlayer cfg dt input p).maxHealth = p.maxHealth
    ∧ (Mini.updatePlayer cfg dt input p).radius = p.radius := by
  simp only [Mini.updatePlayer]
  split_ifs <;> exact ⟨rfl, rfl, rfl⟩

lemma mini_spawnHazard_fields (cfg : Mini.Config) (draws : ℕ → SpawnDraws)
    (st : Mini.State) :
    (Mini.spawnHazard cfg draws st).player = st.player
    ∧ (Mini.spawnHazard cfg draws st).spawnInterval = st.spawnInterval
    ∧ (Mini.spawnHazard cfg draws st).state = st.state
    ∧ (Mini.spawnHazard cfg draws st).time = st.time
    ∧ (Mini.spawnHazard cfg draws st).timeAlive = st.timeAlive
    ∧ (Mini.spawnHazard cfg draws st).bestTime = st.bestTime := by
  simp only [Mini.spawnHazard]
  split_ifs <;> exact ⟨rfl, rfl, rfl, rfl, rfl, rfl⟩

lemma mini_updateHazards_fields (cfg : Mini.Config) (draws : ℕ → SpawnDraws)
    (dt : ℚ) (st : Mini.State) :
    (Mini.updateHazards cfg draws dt st).player = st.player
    ∧ (Mini.updateHazards cfg draws dt st).spawnInterval = st.spawnInterval
    ∧ (Mini.updateHazards cfg draws dt st).state = st.state
    ∧ (Mini.updateHazards cfg draws dt st).time = st.time
    ∧ (Mini.updateHazards cfg draws dt st).timeAlive = st.timeAlive
    ∧ (Mini.updateHazards cfg draws dt st).bestTime = st.bestTime := by
  simp only [Mini.updateHazards]
  split_ifs with h
  · have hs := mini_spawnHazard_fields cfg draws { st with spawnTimer := st.spawnTimer - dt }
    exact ⟨hs.1, hs.2.1, hs.2.2.1, hs.2.2.2.1, hs.2.2.2.2.1, hs.2.2.2.2.2⟩
  · exact ⟨rfl, rfl, rfl, rfl, rfl, rfl⟩

lemma mini_collideStep_fields (cfg : Mini.Config) (acc : Mini.State × Bool × Bool)
    (hzd : Hazard) :
    (Mini.collideStep cfg acc hzd).1.spawnInterval = acc.1.spawnInterval
    ∧ (Mini.collideStep cfg acc hzd).1.spawnTimer = acc.1.spawnTimer
    ∧ (Mini.collideStep cfg acc hzd).1.time = acc.1.time
    ∧ (Mini.collideStep cfg acc hzd).1.timeAlive = acc.1.timeAlive
    ∧ (Mini.collideStep cfg acc hzd).1.hazards = acc.1.hazards
    ∧ (Mini.collideStep cfg acc hzd).1.player.maxHealth = acc.1.player.maxHealth := by
  simp only [Mini.collideStep]
  split_ifs <;> exact ⟨rfl, rfl, rfl, rfl, rfl, rfl⟩

lemma mini_collideFold_fields (cfg : Mini.Config) (l : List Hazard)
    (acc : Mini.State × Bool × Bool) :
    (l.foldl (Mini.collideStep cfg) acc).1.spawnInterval = acc.1.spawnInterval
    ∧ (l.foldl (Mini.collideStep cfg) acc).1.spawnTimer = acc.1.spawnTimer
    ∧ (l.foldl (Mini.collideStep cfg) acc).1.time = acc.1.time
    ∧ (l.foldl (Mini.collideStep cfg) acc).1.timeAlive = acc.1.timeAlive
    ∧ (l.foldl (Mini.collideStep cfg) acc).1.player.maxHealth = acc.1.player.maxHealth := by
  induction l generalizing acc with
  | nil => exact ⟨rfl, rfl, rfl, rfl, rfl⟩
  | cons hzd t ih =>
    have hs := mini_collideStep_fields cfg acc hzd
    have ht := ih (Mini.collideStep cfg acc hzd)
    simp only [List.foldl_cons]
    exact ⟨ht.1.trans hs.1, ht.2.1.trans hs.2.1, ht.2.2.1.trans hs.2.2.1,
      ht.2.2.2.1.trans hs.2.2.2.1, ht.2.2.2.2.trans hs.2.2.2.2.2⟩

lemma mini_checkCollisions_fields (cfg : Mini.Config) (st : Mini.State) :
    (Mini.checkCollisions cfg st).spawnInterval = st.spawnInterval
    ∧ (Mini.checkCollisions cfg st).spawnTimer = st.spawnTimer
    ∧ (Mini.checkCollisions cfg st).time = st.time
    ∧ (Mini.checkCollisions cfg st).timeAlive = st.timeAlive
    ∧ (Mini.checkCollisions cfg st).player.maxHealth = st.player.maxHealth := by
  simp only [Mini.checkCollisions]
  split_ifs with h1
  · exact ⟨rfl, rfl, rfl, rfl, rfl⟩
  all_goals {
    have hf := mini_collideFold_fields cfg st.hazards (st, false, false)
    exact ⟨hf.1, hf.2.1, hf.2.2.1, hf.2.2.2.1, hf.2.2.2.2⟩ }

lemma orch_updatePlayer_fields (cfg : Orch.Config) (dt : ℚ) (input : Intent)
    (p : Orch.Player) :
    (Orch.updatePlayer cfg dt input p).health = p.health
    ∧ (Orch.updatePlayer cfg dt input p).maxHealth = p.maxHealth
    ∧ (Orch.updatePlayer cfg dt input p).mana = p.mana
    ∧ (Orch.updatePlayer cfg dt input p).maxMana = p.maxMana
    ∧ (Orch.updatePlayer cfg dt input p).radius = p.radius := by
  simp only [Orch.updatePlayer]
  split_ifs <;> exact ⟨rfl, rfl, rfl, rfl, rfl⟩

lemma orch_spawnHazard_fields (cfg : Orch.Config) (draws : ℕ → SpawnDraws)
    (st : Orch.State) :
    (Orch.spawnHazard cfg draws st).player = st.player
    ∧ (Orch.spawnHazard cfg draws st).spawnInterval = st.spawnInterval
    ∧ (Orch.spawnHazard cfg draws st).state = st.state
    ∧ (Orch.spawnHazard cfg draws st).time = st.time
    ∧ (Orch.spawnHazard cfg draws st).timeAlive = st.timeAlive
    ∧ (Orch.spawnHazard cfg draws st).bestTime = st.bestTime := by
  simp only [Orch.spawnHazard]
  split_ifs <;> exact ⟨rfl, rfl, rfl, rfl, rfl, rfl⟩

lemma orch_updateHazards_fields (cfg : Orch.Config) (draws : ℕ → SpawnDraws)
    (dt : ℚ) (st : Orch.State) :
    (Orch.updateHazards cfg draws dt st).player = st.player
    ∧ (Orch.updateHazards cfg draws dt st).spawnInterval = st.spawnInterval
    ∧ (Orch.updateHazards cfg draws dt st).state = st.state
    ∧ (Orch.updateHazards cfg draws dt st).time = st.time
    ∧ (Orch.updateHazards cfg draws dt st).timeAlive = st.timeAlive
    ∧ (Orch.updateHazards cfg draws dt st).bestTime = st.bestTime := by
  simp only [Orch.updateHazards]
  split_ifs with h
  · have hs := orch_spawnHazard_fields cfg draws { st with spawnTimer := st.spawnTimer - dt }
    exact ⟨hs.1, hs.2.1, hs.2.2.1, hs.2.2.2.1, hs.2.2.2.2.1, hs.2.2.2.2.2⟩
  · exact ⟨rfl, rfl, rfl, rfl, rfl, rfl⟩

lemma orch_collideStep_fields (cfg : Orch.Config) (acc : Orch.State × Bool × Bool)
    (hzd : Hazard) :
    (Orch.collideStep cfg acc hzd).1.spawnInterval = acc.1.spawnInterval
    ∧ (Orch.collideStep cfg acc hzd).1.spawnTimer = acc.1.spawnTimer
    ∧ (Orch.collideStep cfg acc hzd).1.time = acc.1.time
    ∧ (Orch.collideStep cfg acc hzd).1.timeAlive = acc.1.timeAlive
    ∧ (Orch.collideStep cfg acc hzd).1.player.maxHealth = acc.1.player.maxHealth
    ∧ (Orch.collideStep cfg acc hzd).1.player.mana = acc.1.player.mana
    ∧ (Orch.collideStep cfg acc hzd).1.player.maxMana = acc.1.player.maxMana := by
  simp only [Orch.collideStep]
  split_ifs <;> exact ⟨rfl, rfl, rfl, rfl, rfl, rfl, rfl⟩

lemma orch_collideFold_fields (cfg : Orch.Config) (l : List Hazard)
    (acc : Orch.State × Bool × Bool) :
    (l.foldl (Orch.collideStep cfg) acc).1.spawnInterval = acc.1.spawnInterval
    ∧ (l.foldl (Orch.collideStep cfg) acc).1.spawnTimer = acc.1.spawnTimer
    ∧ (l.foldl (Orch.collideStep cfg) acc).1.time = acc.1.time
    ∧ (l.foldl (Orch.collideStep cfg) acc).1.timeAlive = acc.1.timeAlive := by
  induction l generalizing acc with
  | nil => exact ⟨rfl, rfl, rfl, rfl⟩
  | cons hzd t ih =>
    have hs := orch_collideStep_fields cfg acc hzd
    have ht := ih (Orch.collideStep cfg acc hzd)
    simp only [List.foldl_cons]
    exact ⟨ht.1.trans hs.1, ht.2.1.trans hs.2.1, ht.2.2.1.trans hs.2.2.1,
      ht.2.2.2.trans hs.2.2.2.1⟩

lemma orch_levelLoop_nonstat (prog : Orch.ProgCfg) :
    ∀ (fuel : ℕ) (p : Orch.Player),
    (Orch.levelLoop prog fuel p).x = p.x
    ∧ (Orch.levelLoop prog fuel p).y = p.y
    ∧ (Orch.levelLoop prog fuel p).radius = p.radius := by
  intro fuel
  induction fuel with
  | zero => exact fun p => ⟨rfl, rfl, rfl⟩
  | succ n ih =>
    intro p
    simp only [Orch.levelLoop]
    split_ifs with hc
    · have h1 := ih (Orch.levelUpOnce prog p)
      exact ⟨h1.1, h1.2.1, h1.2.2⟩
    · exact ⟨rfl, rfl, rfl⟩

lemma orch_grantXp_nonstat (prog : Orch.ProgCfg) (amount : ℚ) (p : Orch.Player) :
    (Orch.grantXp prog amount p).x = p.x
    ∧ (Orch.grantXp prog amount p).y = p.y
    ∧ (Orch.grantXp prog amount p).radius = p.radius := by
  unfold Orch.grantXp
  split_ifs with h
  · exact ⟨rfl, rfl, rfl⟩
  · exact orch_levelLoop_nonstat prog _ _

lemma orch_checkCollisions_fields (cfg : Orch.Config) (st : Orch.State) :
    (Orch.checkCollisions cfg st).spawnInterval = st.spawnInterval
    ∧ (Orch.checkCollisions cfg st).spawnTimer = st.spawnTimer
    ∧ (Orch.checkCollisions cfg st).time = st.time
    ∧ (Orch.checkCollisions cfg st).timeAlive = st.timeAlive := by
  simp only [Orch.checkCollisions]
  split_ifs with h1
  all_goals {
    first
    | exact ⟨rfl, rfl, rfl, rfl⟩
    | { have hf := orch_collideFold_fields cfg st.hazards (st, false, false)
        exact ⟨hf.1, hf.2.1, hf.2.2.1, hf.2.2.2⟩ } }

lemma orch_updatePlayerProgression_fields (cfg : Orch.Config) (dt : ℚ)
    (st : Orch.State) :
    (Orch.updatePlayerProgression cfg dt st).spawnInterval = st.spawnInterval
    ∧ (Orch.updatePlayerProgression cfg dt st).spawnTimer = st.spawnTimer
    ∧ (Orch.updatePlayerProgression cfg dt st).time = st.time
    ∧ (Orch.updatePlayerProgression cfg dt st).timeAlive = st.timeAlive
    ∧ (Orch.updatePlayerProgression cfg dt st).state = st.state
    ∧ (Orch.updatePlayerProgression cfg dt st).bestTime = st.bestTime := by
  simp only [Orch.updatePlayerProgression]
  split_ifs <;> exact ⟨rfl, rfl, rfl, rfl, rfl, rfl⟩

/-! ## Smoothstep easing lemmas -/

lemma easeSmooth_nonneg {f : ℚ} (h1 : f ≤ 1) : 0 ≤ easeSmooth f := by
  unfold easeSmooth
  nlinarith

lemma easeSmooth_le_one {f : ℚ} (h0 : 0 ≤ f) : easeSmooth f ≤ 1 := by
  unfold easeSmooth
  nlinarith [sq_nonneg (1 - f)]

lemma easeSmooth_mono {f1 f2 : ℚ} (h0 : 0 ≤ f1) (h12 : f1 ≤ f2) (h1 : f2 ≤ 1) :
    easeSmooth f1 ≤ easeSmooth f2 := by
  unfold easeSmooth
  nlinarith [mul_nonneg (sub_nonneg.2 h12) (mul_nonneg h0 (sub_nonneg.2 h1)),
    mul_nonneg (sub_nonneg.2 h12) (sub_nonneg.2 h1),
    mul_nonneg (mul_nonneg (sub_nonneg.2 h12) (sub_nonneg.2 h12)) (sub_nonneg.2 h1),
    mul_nonneg (mul_nonneg h0 (sub_nonneg.2 h12)) (sub_nonneg.2 h12)]

/-- The spawn interval recomputed by the playing branch of the survival tick
(`part_001:193-198`). -/
lemma mini_update_spawnInterval (cfg : Mini.Config) (draws : ℕ → SpawnDraws)
    (dt : ℚ) (input : Intent) (st : Mini.State) (hst : st.state = RunState.playing) :
    (Mini.update cfg draws dt input st).spawnInterval
      = cfg.hazards.baseSpawnInterval
        + (cfg.hazards.minSpawnInterval - cfg.hazards.baseSpawnInterval)
          * easeSmooth (Mini.difficultyFactor cfg { st with timeAlive := st.timeAlive + dt }) := by
  simp only [Mini.update, hst, ne_eq, not_true_eq_false, if_false]
  rw [(mini_checkCollisions_fields cfg _).1, (mini_updateHazards_fields cfg draws dt _).2.1]
  simp [Mini.difficultyFactor]

/-- The spawn interval recomputed by the playing branch of the orchestrator
tick (`ractr_state.js:593-598`). -/
lemma orch_update_spawnInterval (cfg : Orch.Config) (draws : ℕ → SpawnDraws)
    (dt : ℚ) (input : Intent) (st : Orch.State) (hst : st.state = RunState.playing) :
    (Orch.update cfg draws dt input st).spawnInterval
      = cfg.hazards.baseSpawnInterval
        + (cfg.hazards.minSpawnInterval - cfg.hazards.baseSpawnInterval)
          * easeSmooth (Orch.difficultyFactor cfg { st with timeAlive := st.timeAlive + dt }) := by
  simp only [Orch.update, hst, ne_eq, not_true_eq_false, if_false]
  rw [(orch_updatePlayerProgression_fields cfg dt _).1,
    (orch_checkCollisions_fields cfg _).1, (orch_updateHazards_fields cfg draws dt _).2.1]
  simp [Orch.difficultyFactor]

/-! ## C4: the eased spawn interval -/

/-- C4. Each tick while the run is active, the spawn interval is recomputed as
`baseInterval + (minInterval - baseInterval) * ease(f)` with `f` the difficulty
factor of the incremented survival time and `ease` the smoothstep
`f*f*(3-2*f)`; under `minInterval ≤ baseInterval` (and a positive ramp
duration) the interval stays within `[minInterval, baseInterval]`, equals
`baseInterval` at `f = 0`, equals `minInterval` at `f = 1`, and is
non-increasing in `f`. Both survival variants are covered. -/
theorem spawnInterval_eased_bounds :
    (∀ (cfg : Mini.Config) (draws : ℕ → SpawnDraws) (dt : ℚ) (input : Intent)
        (st : Mini.State), st.state = RunState.playing →
      (Mini.update cfg draws dt input st).spawnInterval
        = cfg.hazards.baseSpawnInterval
          + (cfg.hazards.minSpawnInterval - cfg.hazards.baseSpawnInterval)
            * easeSmooth (Mini.difficultyFactor cfg { st with timeAlive := st.timeAlive + dt }))
    ∧ (∀ (cfg : Mini.Config) (draws : ℕ → SpawnDraws) (dt : ℚ) (input : Intent)
        (st : Mini.State), st.state = RunState.playing →
        cfg.hazards.minSpawnInterval ≤ cfg.hazards.baseSpawnInterval →
        0 < cfg.difficultyDuration →
        cfg.hazards.minSpawnInterval ≤ (Mini.update cfg draws dt input st).spawnInterval
        ∧ (Mini.update cfg draws dt input st).spawnInterval ≤ cfg.hazards.baseSpawnInterval)
    ∧ (∀ (base minI : ℚ),
        base + (minI - base) * easeSmooth 0 = base
        ∧ base + (minI - base) * easeSmooth 1 = minI)
    ∧ (∀ (base minI f1 f2 : ℚ), minI ≤ base → 0 ≤ f1 → f1 ≤ f2 → f2 ≤ 1 →
        base + (minI - base) * easeSmooth f2 ≤ base + (minI - base) * easeSmooth f1)
    ∧ (∀ (cfg : Orch.Config) (draws : ℕ → SpawnDraws) (dt : ℚ) (input : Intent)
        (st : Orch.State), st.state = RunState.playing →
      (Orch.update cfg draws dt input st).spawnInterval
        = cfg.hazards.baseSpawnInterval
          + (cfg.hazards.minSpawnInterval - cfg.hazards.baseSpawnInterval)
            * easeSmooth (Orch.difficultyFactor cfg { st with timeAlive := st.timeAlive + dt }))
    ∧ (∀ (cfg : Orch.Config) (draws : ℕ → SpawnDraws) (dt : ℚ) (input : Intent)
        (st : Orch.State), st.state = RunState.playing →
        cfg.hazards.minSpawnInterval ≤ cfg.hazards.baseSpawnInterval →
        0 < cfg.difficultyDuration →
        cfg.hazards.minSpawnInterval ≤ (Orch.update cfg draws dt input st).spawnInterval
        ∧ (Orch.update cfg draws dt input st).spawnInterval ≤ cfg.hazards.baseSpawnInterval) := by
  have hbounds : ∀ (base minI f : ℚ), minI ≤ base → 0 ≤ f → f ≤ 1 →
      minI ≤ base + (minI - base) * easeSmooth f
      ∧ base + (minI - base) * easeSmooth f ≤ base := by
    intro base minI f hmb h0 h1
    have he0 : 0 ≤ easeSmooth f := easeSmooth_nonneg h1
    have he1 : easeSmooth f ≤ 1 := easeSmooth_le_one h0
    constructor <;> nlinarith [mul_nonneg (sub_nonneg.2 hmb) he0,
      mul_nonneg (sub_nonneg.2 hmb) (sub_nonneg.2 he1)]
  refine ⟨mini_update_spawnInterval, ?_, ?_, ?_, orch_update_spawnInterval, ?_⟩
  · intro cfg draws dt input st hst hmb hdur
    rw [mini_update_spawnInterval cfg draws dt input st hst]
    exact hbounds _ _ _ hmb (clampDiv_nonneg _ _ hdur) (clampDiv_le_one _ _ hdur)
  · intro base minI
    constructor <;> { unfold easeSmooth; ring }
  · intro base minI f1 f2 hmb h0 h12 h1
    have := easeSmooth_mono h0 h12 h1
    nlinarith [mul_nonneg (sub_nonneg.2 hmb) (sub_nonneg.2 this)]
  · intro cfg draws dt input st hst hmb hdur
    rw [orch_update_spawnInterval cfg draws dt input st hst]
    exact hbounds _ _ _ hmb (clampDiv_nonneg _ _ hdur) (clampDiv_le_one _ _ hdur)

/-- Witness for C4: a concrete playing tick of both survival variants under
the built-in default configurations. -/
theorem spawnInterval_eased_bounds_witness :
    ((1 : ℚ) ≤ 2)
    ∧ (Mini.update Mini.defaultConfig (fun _ => ⟨0, 0, 0, 0, 0⟩) 1
        ⟨false, false, false, false, false⟩
        { Mini.initialState with state := RunState.playing }).spawnInterval
      = Mini.defaultConfig.hazards.baseSpawnInterval
        + (Mini.defaultConfig.hazards.minSpawnInterval
            - Mini.defaultConfig.hazards.baseSpawnInterval)
          * easeSmooth (Mini.difficultyFactor Mini.defaultConfig
              { { Mini.initialState with state := RunState.playing } with
                timeAlive := Mini.initialState.timeAlive + 1 })
    ∧ Mini.defaultConfig.hazards.minSpawnInterval
        ≤ (Mini.update Mini.defaultConfig (fun _ => ⟨0, 0, 0, 0, 0⟩) 1
            ⟨false, false, false, false, false⟩
            { Mini.initialState with state := RunState.playing }).spawnInterval := by
  refine ⟨by norm_num, ?_, ?_⟩
  · exact spawnInterval_eased_bounds.1 Mini.defaultConfig (fun _ => ⟨0, 0, 0, 0, 0⟩) 1
      ⟨false, false, false, false, false⟩
      { Mini.initialState with state := RunState.playing } rfl
  · exact (spawnInterval_eased_bounds.2.1 Mini.defaultConfig (fun _ => ⟨0, 0, 0, 0, 0⟩) 1
      ⟨false, false, false, false, false⟩
      { Mini.initialState with state := RunState.playing } rfl
      (by norm_num [Mini.defaultConfig]) (by norm_num [Mini.defaultConfig])).1

/-! ## C7: spawn count capping -/

lemma ceil_min_toNat_le (count M len : ℕ) (h : len < M) :
    (⌈min (count : ℚ) (max 0 ((M : ℚ) - len))⌉).toNat ≤ M - len := by
  have hlt : (len : ℚ) < M := by exact_mod_cast h
  have hx : (0 : ℚ) ≤ (M : ℚ) - len := by linarith
  rw [max_eq_right hx]
  have hcast : ((M : ℚ) - len) = ((M - len : ℕ) : ℚ) := by
    push_cast [Nat.cast_sub h.le]
    ring
  have h2 : ⌈min (count : ℚ) ((M : ℚ) - len)⌉ ≤ ((M - len : ℕ) : ℤ) := by
    rw [hcast]
    calc ⌈min (count : ℚ) (((M - len : ℕ) : ℚ))⌉
        ≤ ⌈((M - len : ℕ) : ℚ)⌉ := Int.ceil_le_ceil (min_le_right _ _)
      _ = ((M - len : ℕ) : ℤ) := Int.ceil_natCast _
  exact Int.toNat_le.mpr h2

/-- C7. In a single spawner invocation the requested spawn count is 1 plus one
per survival-time threshold already crossed, the number of hazards actually
added never exceeds `onScreenCap - currentHostileCount` clamped at 0 (here the
truncated `ℕ` subtraction `M - st.hazards.length`), and a full arena adds
nothing — in both survival variants, for an integer resolved cap `M`. -/
theorem spawn_count_capped :
    (∀ (cfg : Mini.Config) (st : Mini.State),
      Mini.spawnCountRaw cfg st
        = 1 + (cfg.difficulty.spawnCountIncreaseTimes.filter
            (fun t => decide (t ≤ st.timeAlive))).length)
    ∧ (∀ (cfg : Mini.Config) (draws : ℕ → SpawnDraws) (st : Mini.State) (M : ℕ),
        Mini.resolvedMaxOnScreen cfg = (M : ℚ) →
        (Mini.spawnHazard cfg draws st).hazards.length - st.hazards.length
            ≤ M - st.hazards.length
        ∧ (M ≤ st.hazards.length → Mini.spawnHazard cfg draws st = st))
    ∧ (∀ (cfg : Orch.Config) (st : Orch.State),
      Orch.spawnCountRaw cfg st
        = 1 + (cfg.difficulty.spawnCountIncreaseTimes.filter
            (fun t => decide (t ≤ st.timeAlive))).length)
    ∧ (∀ (cfg : Orch.Config) (draws : ℕ → SpawnDraws) (st : Orch.State) (M : ℕ),
        Orch.resolvedMaxOnScreen cfg = (M : ℚ) →
        (Orch.spawnHazard cfg draws st).hazards.length - st.hazards.length
            ≤ M - st.hazards.length
        ∧ (M ≤ st.hazards.length → Orch.spawnHazard cfg draws st = st)) := by
  refine ⟨fun cfg st => rfl, ?_, fun cfg st => rfl, ?_⟩
  · intro cfg draws st M hM
    simp only [Mini.spawnHazard, hM]
    split_ifs with hc
    · exact ⟨by omega, fun _ => rfl⟩
    · have hlt : st.hazards.length < M := by
        by_contra hge
        apply hc
        have : (M : ℚ) ≤ (st.hazards.length : ℚ) := by exact_mod_cast Nat.le_of_not_lt hge
        simp only [max_le_iff, le_refl, true_and]
        linarith
      constructor
      · simp only [List.length_append, List.length_map, List.length_range]
        have := ceil_min_toNat_le (Mini.spawnCountRaw cfg st) M st.hazards.length hlt
        omega
      · intro hge
        omega
  · intro cfg draws st M hM
    simp only [Orch.spawnHazard, hM]
    split_ifs with hc
    · exact ⟨by omega, fun _ => rfl⟩
    · have hlt : st.hazards.length < M := by
        by_contra hge
        apply hc
        have : (M : ℚ) ≤ (st.hazards.length : ℚ) := by exact_mod_cast Nat.le_of_not_lt hge
        simp only [max_le_iff, le_refl, true_and]
        linarith
      constructor
      · simp only [List.length_append, List.length_map, List.length_range]
        have := ceil_min_toNat_le (Orch.spawnCountRaw cfg st) M st.hazards.length hlt
        omega
      · intro hge
        omega

/-- Witness for C7 at a concrete input: the default mini-game config
(cap 42) on the initial (empty-arena) state. -/
theorem spawn_count_capped_witness :
    (Mini.spawnHazard Mini.defaultConfig (fun _ => ⟨0, 0, 0, 0, 0⟩)
        Mini.initialState).hazards.length - Mini.initialState.hazards.length
      ≤ 42 - Mini.initialState.hazards.length := by
  exact (spawn_count_capped.2.1 Mini.defaultConfig (fun _ => ⟨0, 0, 0, 0, 0⟩)
    Mini.initialState 42 (by norm_num [Mini.resolvedMaxOnScreen, Mini.defaultConfig])).1

/-! ## C10: a dash is consumed even when the player is stationary -/

lemma ratSqrt_zero : ratSqrt 0 = 0 := by
  unfold ratSqrt
  norm_num

/-- C10 counterexample. In the survival mini-game, a stationary dash tick with
`dt = 0.5` under the default config (`dashCooldown` maximum 0.6) leaves the
position unchanged but ends the tick with `dashCooldown = 0.1`, not the
configured maximum 0.6: the reset to the maximum is followed by the tick's
regular cooldown decay in this variant. -/
theorem mini_stationary_dash_cooldown_decays :
    (Mini.updatePlayer Mini.defaultConfig 0.5 ⟨false, false, false, false, true⟩
        Mini.initialPlayer).x = Mini.initialPlayer.x
    ∧ (Mini.updatePlayer Mini.defaultConfig 0.5 ⟨false, false, false, false, true⟩
        Mini.initialPlayer).y = Mini.initialPlayer.y
    ∧ Mini.defaultConfig.player.dashCooldown = 0.6
    ∧ (Mini.updatePlayer Mini.defaultConfig 0.5 ⟨false, false, false, false, true⟩
        Mini.initialPlayer).dashCooldown = 0.1
    ∧ (0.1 : ℚ) ≠ 0.6 := by
  norm_num [Mini.updatePlayer, Mini.defaultConfig, Mini.initialPlayer, ratSqrt_zero]

/-- C10 (amended). For a tick whose intent is dash-only (no directional
intent) with the dash cooldown not positive and the player inside the clamp
bounds, the player update leaves position unchanged and velocity zero yet
consumes the dash: the dash branch sets the cooldown to the configured
maximum, after which the survival variants (`Mini`, `Orch`) apply the tick's
regular decay — post value `max 0 (cfgMax - dt)` — while the town variant
decays before the dash check, leaving exactly `dashCooldownMax`. The
`sqrtFn 0 = 0` hypothesis is the value `Math.hypot(0,0) = 0` of the abstract
square root. -/
theorem stationary_dash_consumed :
    (∀ (cfg : Mini.Config) (dt : ℚ) (input : Intent) (p : Mini.Player),
      input.dash = true → input.left = false → input.right = false →
      input.up = false → input.down = false →
      p.dashCooldown ≤ 0 → cfg.sqrtFn 0 = 0 →
      p.radius + 8 ≤ p.x → p.x ≤ cfg.w - p.radius - 8 →
      p.radius + 8 ≤ p.y → p.y ≤ cfg.h - p.radius - 8 →
      (Mini.updatePlayer cfg dt input p).x = p.x
      ∧ (Mini.updatePlayer cfg dt input p).y = p.y
      ∧ (Mini.updatePlayer cfg dt input p).vx = 0
      ∧ (Mini.updatePlayer cfg dt input p).vy = 0
      ∧ (Mini.updatePlayer cfg dt input p).dashCooldown
          = max 0 (cfg.player.dashCooldown - dt))
    ∧ (∀ (cfg : Orch.Config) (dt : ℚ) (input : Intent) (p : Orch.Player),
      input.dash = true → input.left = false → input.right = false →
      input.up = false → input.down = false →
      p.dashCooldown ≤ 0 → cfg.sqrtFn 0 = 0 →
      p.radius + 8 ≤ p.x → p.x ≤ cfg.w - p.radius - 8 →
      p.radius + 8 ≤ p.y → p.y ≤ cfg.h - p.radius - 8 →
      (Orch.updatePlayer cfg dt input p).x = p.x
      ∧ (Orch.updatePlayer cfg dt input p).y = p.y
      ∧ (Orch.updatePlayer cfg dt input p).vx = 0
      ∧ (Orch.updatePlayer cfg dt input p).vy = 0
      ∧ (Orch.updatePlayer cfg dt input p).dashCooldown
          = max 0 (cfg.player.dashCooldown - dt))
    ∧ (∀ (env : Town.Env) (dt : ℚ) (input : Intent) (p : Town.Player),
      input.dash = true → input.left = false → input.right = false →
      input.up = false → input.down = false →
      p.dashCooldown ≤ 0 → env.sqrtFn 0 = 0 →
      env.minX + p.radius ≤ p.x → p.x ≤ env.maxX - p.radius →
      env.minY + p.radius ≤ p.y → p.y ≤ env.maxY - p.radius →
      (Town.updatePlayer env dt input p).x = p.x
      ∧ (Town.updatePlayer env dt input p).y = p.y
      ∧ (Town.updatePlayer env dt input p).vx = 0
      ∧ (Town.updatePlayer env dt input p).vy = 0
      ∧ (Town.updatePlayer env dt input p).dashCooldown = p.dashCooldownMax) := by
  refine ⟨?_, ?_, ?_⟩
  · intro cfg dt input p hdash hL hR hU hD hcd hs hx1 hx2 hy1 hy2
    rcases input with ⟨l, r, u, d, da⟩
    simp only at hdash hL hR hU hD
    subst hdash hL hR hU hD
    simp only [Mini.updatePlayer]
    norm_num [hs]
    split_ifs with h1
    all_goals norm_num [hcd]
    all_goals refine ⟨?_, ?_⟩
    all_goals first
      | rw [max_eq_right hx1, min_eq_left hx2]
      | rw [max_eq_right hy1, min_eq_left hy2]
  · intro cfg dt input p hdash hL hR hU hD hcd hs hx1 hx2 hy1 hy2
    rcases input with ⟨l, r, u, d, da⟩
    simp only at hdash hL hR hU hD
    subst hdash hL hR hU hD
    simp only [Orch.updatePlayer]
    norm_num [hs]
    split_ifs with h1
    all_goals norm_num [hcd]
    all_goals refine ⟨?_, ?_⟩
    all_goals first
      | rw [max_eq_right hx1, min_eq_left hx2]
      | rw [max_eq_right hy1, min_eq_left hy2]
  · intro env dt input p hdash hL hR hU hD hcd hs hx1 hx2 hy1 hy2
    rcases input with ⟨l, r, u, d, da⟩
    simp only at hdash hL hR hU hD
    subst hdash hL hR hU hD
    have hq : (Town.dashAndMove env dt ⟨false, false, false, false, true⟩ p).x = p.x
        ∧ (Town.dashAndMove env dt ⟨false, false, false, false, true⟩ p).y = p.y
        ∧ (Town.dashAndMove env dt ⟨false, false, false, false, true⟩ p).vx = 0
        ∧ (Town.dashAndMove env dt ⟨false, false, false, false, true⟩ p).vy = 0
        ∧ (Town.dashAndMove env dt ⟨false, false, false, false, true⟩ p).radius = p.radius
        ∧ (Town.dashAndMove env dt ⟨false, false, false, false, true⟩ p).dashCooldown
            = p.dashCooldownMax := by
      simp only [Town.dashAndMove]
      norm_num [hs, hcd]
    simp only [Town.updatePlayer]
    rw [if_neg (not_lt.2 hcd)]
    set q := Town.dashAndMove env dt ⟨false, false, false, false, true⟩ p with hqdef
    have c1 : ¬(q.x < env.minX + q.radius) := by
      rw [hq.1, hq.2.2.2.2.1]
      exact not_lt.2 hx1
    have c2 : ¬(env.maxX - q.radius < q.x) := by
      rw [hq.1, hq.2.2.2.2.1]
      exact not_lt.2 hx2
    have c3 : ¬(q.y < env.minY + q.radius) := by
      rw [hq.2.1, hq.2.2.2.2.1]
      exact not_lt.2 hy1
    have c4 : ¬(env.maxY - q.radius < q.y) := by
      rw [hq.2.1, hq.2.2.2.2.1]
      exact not_lt.2 hy2
    simp only [Town.clampToRect]
    rw [if_neg c1, if_neg c2, if_neg c3, if_neg c4]
    exact ⟨hq.1, hq.2.1, hq.2.2.1, hq.2.2.2.1, hq.2.2.2.2.2⟩

/-- Witness for C10 (amended): the initial players of all three variants, a
dash-only intent and `dt = 0.5`, with the abstract square root instantiated
by `ratSqrt`. -/
theorem stationary_dash_consumed_witness :
    ((Mini.updatePlayer Mini.defaultConfig 0.5 ⟨false, false, false, false, true⟩
        Mini.initialPlayer).dashCooldown = max 0 (0.6 - 0.5)
      ∧ (Mini.updatePlayer Mini.defaultConfig 0.5 ⟨false, false, false, false, true⟩
        Mini.initialPlayer).x = Mini.initialPlayer.x)
    ∧ (Town.updatePlayer ⟨80, 880, 100, 460, ratSqrt, fun _ _ => 0⟩ 0.5
        ⟨false, false, false, false, true⟩
        { Town.initialPlayer with x := 240, y := 220 }).dashCooldown
      = Town.initialPlayer.dashCooldownMax := by
  constructor
  · have h := stationary_dash_consumed.1 Mini.defaultConfig 0.5
      ⟨false, false, false, false, true⟩ Mini.initialPlayer rfl rfl rfl rfl rfl
      (by norm_num [Mini.initialPlayer]) ratSqrt_zero
      (by norm_num [Mini.initialPlayer]) (by norm_num [Mini.initialPlayer, Mini.defaultConfig])
      (by norm_num [Mini.initialPlayer]) (by norm_num [Mini.initialPlayer, Mini.defaultConfig])
    refine ⟨?_, h.1⟩
    rw [h.2.2.2.2]
    norm_num [Mini.defaultConfig]
  · have h := stationary_dash_consumed.2.2 ⟨80, 880, 100, 460, ratSqrt, fun _ _ => 0⟩ 0.5
      ⟨false, false, false, false, true⟩ { Town.initialPlayer with x := 240, y := 220 } rfl rfl rfl rfl rfl
      (by norm_num [Town.initialPlayer]) ratSqrt_zero
      (by norm_num [Town.initialPlayer]) (by norm_num [Town.initialPlayer])
      (by norm_num [Town.initialPlayer]) (by norm_num [Town.initialPlayer])
    exact h.2.2.2.2

/-! ## C8: behavior of grantXp on non-positive amounts -/

/-- C8 counterexample. The town variant's `_grantXp` has no `amount <= 0`
guard: called with `-1` on the initial town player (`xp = 0`) it changes the
player's xp to `-1`, so `grantXp` is not a no-op for every non-positive
amount in every variant. -/
theorem town_grantXp_negative_changes_xp :
    (Town.grantXp (fun _ => 0) (-1) Town.initialPlayer).xp = -1
    ∧ Town.initialPlayer.xp = 0
    ∧ Town.grantXp (fun _ => 0) (-1) Town.initialPlayer ≠ Town.initialPlayer := by
  have h1 : (Town.grantXp (fun _ => 0) (-1) Town.initialPlayer).xp = -1 := by
    norm_num [Town.grantXp, Town.grantFuel, Town.levelLoop, Town.initialPlayer]
  refine ⟨h1, rfl, fun hcontra => ?_⟩
  rw [hcontra] at h1
  norm_num [Town.initialPlayer] at h1

/-- C8 (amended). The orchestrator's `_grantXp` is a no-op for every
`amount ≤ 0`; the town and ARPG variants have no such guard, and are
unchanged on `amount = 0` only because adding zero experience leaves
`xp < xpToNext` and the level loop does not run (negative amounts change
`xp`, as the counterexample shows). -/
theorem grantXp_nonpositive_guard :
    (∀ (prog : Orch.ProgCfg) (amount : ℚ) (p : Orch.Player), amount ≤ 0 →
      Orch.grantXp prog amount p = p)
    ∧ (∀ (powFn : ℚ → ℚ) (p : Town.Player), p.xp < p.xpToNext →
      Town.grantXp powFn 0 p = p)
    ∧ (∀ (powFn : ℚ → ℚ) (p : Arpg.Player), p.xp < p.xpToNext →
      Arpg.grantXp powFn 0 p = p) := by
  refine ⟨?_, ?_, ?_⟩
  · intro prog amount p h
    unfold Orch.grantXp
    rw [if_pos h]
  · intro powFn p h
    unfold Town.grantXp Town.grantFuel
    simp only [Town.levelLoop]
    rw [if_neg (by simpa using not_le.2 h)]
    simp
  · intro powFn p h
    unfold Arpg.grantXp Arpg.grantFuel
    simp only [Arpg.levelLoop]
    rw [if_neg (by simpa using not_le.2 h)]
    simp

/-- Witness for C8 (amended) at concrete inputs: the orchestrator guard at
`amount = -5`, and the unguarded variants at `amount = 0` on their initial
players. -/
theorem grantXp_nonpositive_guard_witness :
    Orch.grantXp (Orch.defaultProgression (fun _ => 0)) (-5) Orch.initialPlayer
      = Orch.initialPlayer
    ∧ Town.grantXp (fun _ => 0) 0 Town.initialPlayer = Town.initialPlayer
    ∧ Arpg.grantXp (fun _ => 0) 0 Arpg.initialPlayer = Arpg.initialPlayer := by
  refine ⟨?_, ?_, ?_⟩
  · exact grantXp_nonpositive_guard.1 (Orch.defaultProgression (fun _ => 0)) (-5)
      Orch.initialPlayer (by norm_num)
  · exact grantXp_nonpositive_guard.2.1 (fun _ => 0) Town.initialPlayer
      (by norm_num [Town.initialPlayer])
  · exact grantXp_nonpositive_guard.2.2 (fun _ => 0) Arpg.initialPlayer
      (by norm_num [Arpg.initialPlayer])

/-! ## Level-loop exit lemmas -/

lemma orch_levelLoop_exit (prog : Orch.ProgCfg) (f : ℕ) (p : Orch.Player)
    (h : p.xp < p.xpToNext) : Orch.levelLoop prog f p = p := by
  cases f with
  | zero => rfl
  | succ n =>
    simp only [Orch.levelLoop]
    rw [if_neg (not_le.2 h)]

lemma town_levelLoop_exit (powFn : ℚ → ℚ) (f : ℕ) (p : Town.Player)
    (h : p.xp < p.xpToNext) : Town.levelLoop powFn f p = p := by
  cases f with
  | zero => rfl
  | succ n =>
    simp only [Town.levelLoop]
    rw [if_neg (not_le.2 h)]

lemma arpg_levelLoop_exit (powFn : ℚ → ℚ) (f : ℕ) (p : Arpg.Player)
    (h : p.xp < p.xpToNext) : Arpg.levelLoop powFn f p = p := by
  cases f with
  | zero => rfl
  | succ n =>
    simp only [Arpg.levelLoop]
    rw [if_neg (not_le.2 h)]

/-- A `grantXp` call of the orchestrator whose amount crosses the current
threshold exactly once reduces to a single `levelUpOnce`. -/
lemma orch_grantXp_single_level (prog : Orch.ProgCfg) (amount : ℚ) (p : Orch.Player)
    (hpos : 0 < amount)
    (hcross : p.xpToNext ≤ p.xp + amount)
    (hexit : p.xp + amount - p.xpToNext < Orch.computeXpForLevel prog (p.level + 1 + 1)) :
    Orch.grantXp prog amount p = Orch.levelUpOnce prog { p with xp := p.xp + amount } := by
  unfold Orch.grantXp
  rw [if_neg (not_le.2 hpos)]
  unfold Orch.grantFuel
  simp only [Orch.levelLoop]
  rw [if_pos (show ({ p with xp := p.xp + amount } : Orch.Player).xpToNext
      ≤ ({ p with xp := p.xp + amount } : Orch.Player).xp from hcross)]
  exact orch_levelLoop_exit prog _ _ hexit

/-! ## C9: health/mana refill on level-up -/

/-- C9 counterexample. In the orchestrator variant a level-up does not refill
health to the new maximum: granting 10 xp to a player at `xp = 95,
xpToNext = 100` with 1 health (default progression config) levels once to
`maxHealth = 112` but only heals to `min(112, 1 + max(5, 10)) = 11`. -/
theorem orch_levelup_partial_heal :
    (Orch.grantXp (Orch.defaultProgression (fun _ => 0)) 10
        { Orch.initialPlayer with health := 1, xp := 95 }).level = 2
    ∧ (Orch.grantXp (Orch.defaultProgression (fun _ => 0)) 10
        { Orch.initialPlayer with health := 1, xp := 95 }).health = 11
    ∧ (Orch.grantXp (Orch.defaultProgression (fun _ => 0)) 10
        { Orch.initialPlayer with health := 1, xp := 95 }).maxHealth = 112
    ∧ (11 : ℚ) ≠ 112 := by
  rw [orch_grantXp_single_level (Orch.defaultProgression (fun _ => 0)) 10
      { Orch.initialPlayer with health := 1, xp := 95 } (by norm_num)
      (by norm_num [Orch.initialPlayer])
      (by norm_num [Orch.initialPlayer, Orch.computeXpForLevel, Orch.resolvedBaseXp,
        Orch.defaultProgression])]
  norm_num [Orch.levelUpOnce, Orch.computeXpForLevel, Orch.resolvedBaseXp,
    Orch.defaultProgression, Orch.initialPlayer, jround]

lemma town_levelLoop_refill (powFn : ℚ → ℚ) :
    ∀ (f : ℕ) (q : Town.Player), q.health = q.maxHealth → q.mana = q.maxMana →
    (Town.levelLoop powFn f q).health = (Town.levelLoop powFn f q).maxHealth
    ∧ (Town.levelLoop powFn f q).mana = (Town.levelLoop powFn f q).maxMana := by
  intro f
  induction f with
  | zero => exact fun q h1 h2 => ⟨h1, h2⟩
  | succ n ih =>
    intro q h1 h2
    simp only [Town.levelLoop]
    split_ifs with hc
    · exact ih (Town.levelUpOnce powFn q) rfl rfl
    · exact ⟨h1, h2⟩

lemma arpg_levelLoop_refill (powFn : ℚ → ℚ) :
    ∀ (f : ℕ) (q : Arpg.Player), q.health = q.maxHealth → q.mana = q.maxMana →
    (Arpg.levelLoop powFn f q).health = (Arpg.levelLoop powFn f q).maxHealth
    ∧ (Arpg.levelLoop powFn f q).mana = (Arpg.levelLoop powFn f q).maxMana := by
  intro f
  induction f with
  | zero => exact fun q h1 h2 => ⟨h1, h2⟩
  | succ n ih =>
    intro q h1 h2
    simp only [Arpg.levelLoop]
    split_ifs with hc
    · exact ih (Arpg.levelUpOnce powFn q) rfl rfl
    · exact ⟨h1, h2⟩

/-- C9 (amended). On every level-up inside `grantXp` the town and ARPG
variants refill health and mana to the new maxima (any call performing at
least one level-up ends with `health = maxHealth` and `mana = maxMana`); the
orchestrator variant instead adds `max(5, hpPerLevel)` health and
`max(3, manaPerLevel)` mana per level, each clamped to the new maximum — a
partial refill, not `health = maxHealth`. -/
theorem levelup_refill_behavior :
    (∀ (prog : Orch.ProgCfg) (p : Orch.Player),
      (Orch.levelUpOnce prog p).health
          = min (Orch.levelUpOnce prog p).maxHealth (p.health + max 5 prog.hpPerLevel)
      ∧ (Orch.levelUpOnce prog p).mana
          = min (Orch.levelUpOnce prog p).maxMana (p.mana + max 3 prog.manaPerLevel))
    ∧ (∀ (powFn : ℚ → ℚ) (amount : ℚ) (p : Town.Player),
        p.xpToNext ≤ p.xp + amount →
        (Town.grantXp powFn amount p).health = (Town.grantXp powFn amount p).maxHealth
        ∧ (Town.grantXp powFn amount p).mana = (Town.grantXp powFn amount p).maxMana)
    ∧ (∀ (powFn : ℚ → ℚ) (amount : ℚ) (p : Arpg.Player),
        p.xpToNext ≤ p.xp + amount →
        (Arpg.grantXp powFn amount p).health = (Arpg.grantXp powFn amount p).maxHealth
        ∧ (Arpg.grantXp powFn amount p).mana = (Arpg.grantXp powFn amount p).maxMana) := by
  refine ⟨fun prog p => ⟨rfl, rfl⟩, ?_, ?_⟩
  · intro powFn amount p h
    unfold Town.grantXp Town.grantFuel
    simp only [Town.levelLoop]
    rw [if_pos (show ({ p with xp := p.xp + amount } : Town.Player).xpToNext
        ≤ ({ p with xp := p.xp + amount } : Town.Player).xp from h)]
    exact town_levelLoop_refill powFn _ _ rfl rfl
  · intro powFn amount p h
    unfold Arpg.grantXp Arpg.grantFuel
    simp only [Arpg.levelLoop]
    rw [if_pos (show ({ p with xp := p.xp + amount } : Arpg.Player).xpToNext
        ≤ ({ p with xp := p.xp + amount } : Arpg.Player).xp from h)]
    exact arpg_levelLoop_refill powFn _ _ rfl rfl

/-- Witness for C9 (amended): a 200-xp town grant and a 200-xp ARPG grant
from the initial players (both level up at least once), and the orchestrator
partial-refill shape at the initial player. -/
theorem levelup_refill_behavior_witness :
    ((Town.grantXp (fun _ => 0) 200 Town.initialPlayer).health
        = (Town.grantXp (fun _ => 0) 200 Town.initialPlayer).maxHealth)
    ∧ ((Arpg.grantXp (fun _ => 0) 200 Arpg.initialPlayer).health
        = (Arpg.grantXp (fun _ => 0) 200 Arpg.initialPlayer).maxHealth)
    ∧ ((Orch.levelUpOnce (Orch.defaultProgression (fun _ => 0)) Orch.initialPlayer).health
        = min (Orch.levelUpOnce (Orch.defaultProgression (fun _ => 0))
            Orch.initialPlayer).maxHealth
          (Orch.initialPlayer.health
            + max 5 (Orch.defaultProgression (fun _ => 0)).hpPerLevel)) := by
  refine ⟨?_, ?_, ?_⟩
  · exact (levelup_refill_behavior.2.1 (fun _ => 0) 200 Town.initialPlayer
      (by norm_num [Town.initialPlayer])).1
  · exact (levelup_refill_behavior.2.2 (fun _ => 0) 200 Arpg.initialPlayer
      (by norm_num [Arpg.initialPlayer])).1
  · exact (levelup_refill_behavior.1 (Orch.defaultProgression (fun _ => 0))
      Orch.initialPlayer).1

/-! ## C2: progression invariants of grantXp -/

lemma orch_levelUpOnce_xp (prog : Orch.ProgCfg) (p : Orch.Player) :
    (Orch.levelUpOnce prog p).xp = p.xp - p.xpToNext := rfl

lemma orch_levelUpOnce_level (prog : Orch.ProgCfg) (p : Orch.Player) :
    (Orch.levelUpOnce prog p).level = p.level + 1 := rfl

lemma orch_levelUpOnce_xpToNext (prog : Orch.ProgCfg) (p : Orch.Player) :
    (Orch.levelUpOnce prog p).xpToNext = Orch.computeXpForLevel prog (p.level + 1 + 1) := rfl

/-- Recomputed thresholds of the orchestrator are at least the (resolved) base
when the power function is nonnegative. -/
lemma orch_computeXp_ge (prog : Orch.ProgCfg) (hpow : ∀ q, 0 ≤ prog.powFn q)
    (hbase : 0 < Orch.resolvedBaseXp prog) (level : ℚ) :
    Orch.resolvedBaseXp prog ≤ Orch.computeXpForLevel prog level := by
  simp only [Orch.computeXpForLevel]
  have h1 : (0 : ℚ) ≤ Orch.resolvedBaseXp prog * prog.powFn (max 1 level - 1) :=
    mul_nonneg hbase.le (hpow _)
  have h2 : (0 : ℤ) ≤ ⌊Orch.resolvedBaseXp prog * prog.powFn (max 1 level - 1)⌋ :=
    Int.floor_nonneg.mpr h1
  have h3 : (0 : ℚ) ≤ ((⌊Orch.resolvedBaseXp prog * prog.powFn (max 1 level - 1)⌋ : ℤ) : ℚ) := by
    exact_mod_cast h2
  linarith

/-- Exit invariant of the orchestrator level loop: if every iteration removes
at least `m > 0` experience (both the current and all recomputed thresholds
are at least `m`) and the fuel exceeds `xp / m`, the loop ends with
`xp < xpToNext`, a non-decreased level, and a threshold still at least `m`. -/
lemma orch_levelLoop_post (prog : Orch.ProgCfg) (hpow : ∀ q, 0 ≤ prog.powFn q)
    (m : ℚ) (hm : 0 < m) (hmb : m ≤ Orch.resolvedBaseXp prog) :
    ∀ (f : ℕ) (p : Orch.Player), m ≤ p.xpToNext → p.xp < m * f →
    (Orch.levelLoop prog f p).xp < (Orch.levelLoop prog f p).xpToNext
    ∧ p.level ≤ (Orch.levelLoop prog f p).level
    ∧ m ≤ (Orch.levelLoop prog f p).xpToNext := by
  intro f
  induction f with
  | zero =>
    intro p hth hxp
    simp only [Nat.cast_zero, mul_zero] at hxp
    simp only [Orch.levelLoop]
    exact ⟨by linarith, le_rfl, hth⟩
  | succ n ih =>
    intro p hth hxp
    simp only [Orch.levelLoop]
    split_ifs with hc
    · have hbase0 : 0 < Orch.resolvedBaseXp prog := lt_of_lt_of_le hm hmb
      have h1 : m ≤ (Orch.levelUpOnce prog p).xpToNext := by
        rw [orch_levelUpOnce_xpToNext]
        exact le_trans hmb (orch_computeXp_ge prog hpow hbase0 _)
      have h2 : (Orch.levelUpOnce prog p).xp < m * n := by
        rw [orch_levelUpOnce_xp]
        push_cast at hxp
        linarith
      have h3 := ih (Orch.levelUpOnce prog p) h1 h2
      refine ⟨h3.1, ?_, h3.2.2⟩
      have h4 := h3.2.1
      rw [orch_levelUpOnce_level] at h4
      linarith
    · exact ⟨not_le.1 hc, le_rfl, hth⟩

/-- The declared fuel of the orchestrator `grantXp` exceeds the iteration
count bound `xp / m`. -/
lemma orch_grantFuel_big (prog : Orch.ProgCfg) (p : Orch.Player)
    (hm : 0 < min (Orch.resolvedBaseXp prog) p.xpToNext) :
    p.xp < min (Orch.resolvedBaseXp prog) p.xpToNext * (Orch.grantFuel prog p) := by
  set m := min (Orch.resolvedBaseXp prog) p.xpToNext with hmdef
  have h1 : p.xp / m ≤ ((⌈p.xp / m⌉.toNat : ℤ) : ℚ) :=
    le_trans (Int.le_ceil _) (by exact_mod_cast Int.self_le_toNat _)
  have h2 : p.xp ≤ (⌈p.xp / m⌉.toNat : ℚ) * m := (div_le_iff₀ hm).1 (by exact_mod_cast h1)
  have h3 : (Orch.grantFuel prog p : ℚ) = (⌈p.xp / m⌉.toNat : ℚ) + 1 := by
    unfold Orch.grantFuel
    rw [← hmdef]
    push_cast
    ring
  rw [h3]
  nlinarith

/-- Post-state of a positive-amount orchestrator `grantXp`: the experience
invariant is restored, the level does not decrease, and the threshold stays
positive. -/
lemma orch_grantXp_post (prog : Orch.ProgCfg) (hpow : ∀ q, 0 ≤ prog.powFn q)
    (hbase : 0 < Orch.resolvedBaseXp prog) (amount : ℚ) (p : Orch.Player)
    (hpos : 0 < amount) (hth : 0 < p.xpToNext) :
    (Orch.grantXp prog amount p).xp < (Orch.grantXp prog amount p).xpToNext
    ∧ p.level ≤ (Orch.grantXp prog amount p).level
    ∧ 0 < (Orch.grantXp prog amount p).xpToNext := by
  unfold Orch.grantXp
  rw [if_neg (not_le.2 hpos)]
  have hm : 0 < min (Orch.resolvedBaseXp prog) p.xpToNext := lt_min hbase hth
  have hfuel := orch_grantFuel_big prog { p with xp := p.xp + amount } hm
  have h := orch_levelLoop_post prog hpow
    (min (Orch.resolvedBaseXp prog) p.xpToNext) hm (min_le_left _ _)
    (Orch.grantFuel prog { p with xp := p.xp + amount })
    { p with xp := p.xp + amount } (min_le_right _ _) hfuel
  exact ⟨h.1, h.2.1, lt_of_lt_of_le hm h.2.2⟩

lemma town_levelUpOnce_xp (powFn : ℚ → ℚ) (p : Town.Player) :
    (Town.levelUpOnce powFn p).xp = p.xp - p.xpToNext := rfl

lemma town_levelUpOnce_level (powFn : ℚ → ℚ) (p : Town.Player) :
    (Town.levelUpOnce powFn p).level = p.level + 1 := rfl

lemma town_levelUpOnce_xpToNext (powFn : ℚ → ℚ) (p : Town.Player) :
    (Town.levelUpOnce powFn p).xpToNext
      = ((⌊(120 : ℚ) * powFn (p.level + 1)⌋ : ℤ) : ℚ) + 40 := rfl

/-- Recomputed thresholds of the town variant are at least 40 when the power
function is nonnegative. -/
lemma town_levelUpOnce_th_ge (powFn : ℚ → ℚ) (hpow : ∀ q, 0 ≤ powFn q)
    (p : Town.Player) : 40 ≤ (Town.levelUpOnce powFn p).xpToNext := by
  rw [town_levelUpOnce_xpToNext]
  have h1 : (0 : ℚ) ≤ (120 : ℚ) * powFn (p.level + 1) := by
    have := hpow (p.level + 1)
    linarith
  have h2 : (0 : ℤ) ≤ ⌊(120 : ℚ) * powFn (p.level + 1)⌋ := Int.floor_nonneg.mpr h1
  have h3 : (0 : ℚ) ≤ ((⌊(120 : ℚ) * powFn (p.level + 1)⌋ : ℤ) : ℚ) := by exact_mod_cast h2
  linarith

lemma town_levelLoop_post (powFn : ℚ → ℚ) (hpow : ∀ q, 0 ≤ powFn q)
    (m : ℚ) (hm : 0 < m) (hmb : m ≤ 40) :
    ∀ (f : ℕ) (p : Town.Player), m ≤ p.xpToNext → p.xp < m * f →
    (Town.levelLoop powFn f p).xp < (Town.levelLoop powFn f p).xpToNext
    ∧ p.level ≤ (Town.levelLoop powFn f p).level
    ∧ m ≤ (Town.levelLoop powFn f p).xpToNext := by
  intro f
  induction f with
  | zero =>
    intro p hth hxp
    simp only [Nat.cast_zero, mul_zero] at hxp
    simp only [Town.levelLoop]
    exact ⟨by linarith, le_rfl, hth⟩
  | succ n ih =>
    intro p hth hxp
    simp only [Town.levelLoop]
    split_ifs with hc
    · have h1 : m ≤ (Town.levelUpOnce powFn p).xpToNext :=
        le_trans hmb (town_levelUpOnce_th_ge powFn hpow p)
      have h2 : (Town.levelUpOnce powFn p).xp < m * n := by
        rw [town_levelUpOnce_xp]
        push_cast at hxp
        linarith
      have h3 := ih (Town.levelUpOnce powFn p) h1 h2
      refine ⟨h3.1, ?_, h3.2.2⟩
      have h4 := h3.2.1
      rw [town_levelUpOnce_level] at h4
      linarith
    · exact ⟨not_le.1 hc, le_rfl, hth⟩

lemma town_grantFuel_big (p : Town.Player) (hm : 0 < min (40 : ℚ) p.xpToNext) :
    p.xp < min (40 : ℚ) p.xpToNext * (Town.grantFuel p) := by
  set m := min (40 : ℚ) p.xpToNext with hmdef
  have h1 : p.xp / m ≤ ((⌈p.xp / m⌉.toNat : ℤ) : ℚ) :=
    le_trans (Int.le_ceil _) (by exact_mod_cast Int.self_le_toNat _)
  have h2 : p.xp ≤ (⌈p.xp / m⌉.toNat : ℚ) * m := (div_le_iff₀ hm).1 (by exact_mod_cast h1)
  have h3 : (Town.grantFuel p : ℚ) = (⌈p.xp / m⌉.toNat : ℚ) + 1 := by
    unfold Town.grantFuel
    rw [← hmdef]
    push_cast
    ring
  rw [h3]
  nlinarith

lemma town_grantXp_post (powFn : ℚ → ℚ) (hpow : ∀ q, 0 ≤ powFn q)
    (amount : ℚ) (p : Town.Player) (hth : 0 < p.xpToNext) :
    (Town.grantXp powFn amount p).xp < (Town.grantXp powFn amount p).xpToNext
    ∧ p.level ≤ (Town.grantXp powFn amount p).level
    ∧ 0 < (Town.grantXp powFn amount p).xpToNext := by
  unfold Town.grantXp
  have hm : 0 < min (40 : ℚ) p.xpToNext := lt_min (by norm_num) hth
  have hfuel := town_grantFuel_big { p with xp := p.xp + amount } hm
  have h := town_levelLoop_post powFn hpow (min (40 : ℚ) p.xpToNext) hm (min_le_left _ _)
    (Town.grantFuel { p with xp := p.xp + amount })
    { p with xp := p.xp + amount } (min_le_right _ _) hfuel
  exact ⟨h.1, h.2.1, lt_of_lt_of_le hm h.2.2⟩

lemma orch_levelLoop_step (prog : Orch.ProgCfg) (f : ℕ) (p : Orch.Player)
    (h : p.xpToNext ≤ p.xp) :
    Orch.levelLoop prog (f + 1) p = Orch.levelLoop prog f (Orch.levelUpOnce prog p) := by
  simp only [Orch.levelLoop]
  rw [if_pos h]

/-- C2. After any `grantXp` call with a positive amount (thresholds positive,
power function nonnegative), `xp < xpToNext` holds, the level is
non-decreasing, and the threshold is positive again — in both the
orchestrator and the town variant, hence along every such call sequence.
Scenario C: from `xp = 95, xpToNext = 100`, `grantXp 10` performs exactly one
level-up: final `xp = 5` and `xpToNext` recomputed from the new level. And a
single call carrying enough experience performs several level-ups in one
invocation: `grantXp 250` from the initial orchestrator player (level 1,
`xpToNext = 100`, constant-threshold power function) ends at level 3. -/
theorem grantXp_progression_invariant :
    (∀ (prog : Orch.ProgCfg) (amount : ℚ) (p : Orch.Player),
      (∀ q, 0 ≤ prog.powFn q) → 0 < Orch.resolvedBaseXp prog →
      0 < amount → 0 < p.xpToNext →
      (Orch.grantXp prog amount p).xp < (Orch.grantXp prog amount p).xpToNext
      ∧ p.level ≤ (Orch.grantXp prog amount p).level
      ∧ 0 < (Orch.grantXp prog amount p).xpToNext)
    ∧ (∀ (powFn : ℚ → ℚ) (amount : ℚ) (p : Town.Player),
      (∀ q, 0 ≤ powFn q) → 0 < amount → 0 < p.xpToNext →
      (Town.grantXp powFn amount p).xp < (Town.grantXp powFn amount p).xpToNext
      ∧ p.level ≤ (Town.grantXp powFn amount p).level
      ∧ 0 < (Town.grantXp powFn amount p).xpToNext)
    ∧ (∀ (prog : Orch.ProgCfg) (p : Orch.Player),
      (∀ q, 0 ≤ prog.powFn q) → 5 < Orch.resolvedBaseXp prog →
      p.xp = 95 → p.xpToNext = 100 →
      (Orch.grantXp prog 10 p).level = p.level + 1
      ∧ (Orch.grantXp prog 10 p).xp = 5
      ∧ (Orch.grantXp prog 10 p).xpToNext
          = Orch.computeXpForLevel prog (p.level + 1 + 1))
    ∧ (Orch.grantXp (Orch.defaultProgression (fun _ => 0)) 250 Orch.initialPlayer).level
        = 3 := by
  refine ⟨?_, ?_, ?_, ?_⟩
  · intro prog amount p hpow hbase hpos hth
    exact orch_grantXp_post prog hpow hbase amount p hpos hth
  · intro powFn amount p hpow _hpos hth
    exact town_grantXp_post powFn hpow amount p hth
  · intro prog p hpow hbase5 hxp hth
    have hbase0 : 0 < Orch.resolvedBaseXp prog := by linarith
    have hsingle := orch_grantXp_single_level prog 10 p (by norm_num)
      (by rw [hxp, hth]; norm_num)
      (by
        have := orch_computeXp_ge prog hpow hbase0 (p.level + 1 + 1)
        rw [hxp, hth]
        linarith)
    rw [hsingle]
    refine ⟨?_, ?_, ?_⟩
    · rw [orch_levelUpOnce_level]
    · rw [orch_levelUpOnce_xp]
      simp only [hxp, hth]
      norm_num
    · rw [orch_levelUpOnce_xpToNext]
  · have c0 : ({ Orch.initialPlayer with xp := Orch.initialPlayer.xp + 250 } :
        Orch.Player).xpToNext
        ≤ ({ Orch.initialPlayer with xp := Orch.initialPlayer.xp + 250 } : Orch.Player).xp := by
      norm_num [Orch.initialPlayer]
    have hfuel : Orch.grantFuel (Orch.defaultProgression (fun _ => 0))
        { Orch.initialPlayer with xp := Orch.initialPlayer.xp + 250 } = 4 := by
      unfold Orch.grantFuel
      norm_num [Orch.initialPlayer, Orch.resolvedBaseXp, Orch.defaultProgression]
      rw [show ⌈(5 : ℚ) / 2⌉ = 3 from by rw [Int.ceil_eq_iff]; norm_num]
      rfl
    have c1 : (Orch.levelUpOnce (Orch.defaultProgression (fun _ => 0))
        { Orch.initialPlayer with xp := Orch.initialPlayer.xp + 250 }).xpToNext
        ≤ (Orch.levelUpOnce (Orch.defaultProgression (fun _ => 0))
          { Orch.initialPlayer with xp := Orch.initialPlayer.xp + 250 }).xp := by
      rw [orch_levelUpOnce_xpToNext, orch_levelUpOnce_xp]
      norm_num [Orch.computeXpForLevel, Orch.resolvedBaseXp, Orch.defaultProgression,
        Orch.initialPlayer]
    have hlt : (Orch.levelUpOnce (Orch.defaultProgression (fun _ => 0))
          (Orch.levelUpOnce (Orch.defaultProgression (fun _ => 0))
            { Orch.initialPlayer with xp := Orch.initialPlayer.xp + 250 })).xp
        < (Orch.levelUpOnce (Orch.defaultProgression (fun _ => 0))
          (Orch.levelUpOnce (Orch.defaultProgression (fun _ => 0))
            { Orch.initialPlayer with xp := Orch.initialPlayer.xp + 250 })).xpToNext := by
      rw [orch_levelUpOnce_xp, orch_levelUpOnce_xpToNext, orch_levelUpOnce_xp,
        orch_levelUpOnce_xpToNext]
      norm_num [Orch.computeXpForLevel, Orch.resolvedBaseXp, Orch.defaultProgression,
        Orch.initialPlayer]
    simp only [Orch.grantXp]
    rw [if_neg (by norm_num), hfuel, show (4 : ℕ) = 3 + 1 from rfl,
      orch_levelLoop_step _ _ _ c0, show (3 : ℕ) = 2 + 1 from rfl,
      orch_levelLoop_step _ _ _ c1, orch_levelLoop_exit _ _ _ hlt,
      orch_levelUpOnce_level, orch_levelUpOnce_level]
    norm_num [Orch.initialPlayer]

/-- Witness for C2 at concrete inputs: the default progression config (base
100, constant-zero power stand-in) on the initial orchestrator player,
granting 30 xp; the town variant granting 30 xp from its initial player; and
the Scenario C state `xp = 95, xpToNext = 100`. -/
theorem grantXp_progression_invariant_witness :
    ((Orch.grantXp (Orch.defaultProgression (fun _ => 0)) 30 Orch.initialPlayer).xp
        < (Orch.grantXp (Orch.defaultProgression (fun _ => 0)) 30 Orch.initialPlayer).xpToNext
      ∧ Orch.initialPlayer.level
        ≤ (Orch.grantXp (Orch.defaultProgression (fun _ => 0)) 30 Orch.initialPlayer).level)
    ∧ (Town.grantXp (fun _ => 0) 30 Town.initialPlayer).xp
        < (Town.grantXp (fun _ => 0) 30 Town.initialPlayer).xpToNext
    ∧ (Orch.grantXp (Orch.defaultProgression (fun _ => 0)) 10
        { Orch.initialPlayer with xp := 95 }).xp = 5 := by
  refine ⟨⟨?_, ?_⟩, ?_, ?_⟩
  · exact (grantXp_progression_invariant.1 (Orch.defaultProgression (fun _ => 0)) 30
      Orch.initialPlayer (fun q => le_rfl)
      (by norm_num [Orch.resolvedBaseXp, Orch.defaultProgression]) (by norm_num)
      (by norm_num [Orch.initialPlayer])).1
  · exact (grantXp_progression_invariant.1 (Orch.defaultProgression (fun _ => 0)) 30
      Orch.initialPlayer (fun q => le_rfl)
      (by norm_num [Orch.resolvedBaseXp, Orch.defaultProgression]) (by norm_num)
      (by norm_num [Orch.initialPlayer])).2.1
  · exact (grantXp_progression_invariant.2.1 (fun _ => 0) 30 Town.initialPlayer
      (fun q => le_rfl) (by norm_num) (by norm_num [Town.initialPlayer])).1
  · exact (grantXp_progression_invariant.2.2.1 (Orch.defaultProgression (fun _ => 0))
      { Orch.initialPlayer with xp := 95 } (fun q => le_rfl)
      (by norm_num [Orch.resolvedBaseXp, Orch.defaultProgression]) rfl
      (by norm_num [Orch.initialPlayer])).2.1

/-! ## C6: death ends the run and records the best time -/

/-- Invariant of the per-hazard collision pass: the survival time is
untouched, state and best time are untouched while the player lives, and as
soon as health reaches zero the state is `gameover`, the best time is
`max bestTime timeAlive` of the pre-pass state, and the freshly set
invulnerability window (which blocks any further damage in the same pass) is
positive. -/
lemma mini_collideFold_death (cfg : Mini.Config) (st0 : Mini.State) :
    ∀ (l : List Hazard) (acc : Mini.State × Bool × Bool),
    acc.1.timeAlive = st0.timeAlive →
    (0 < acc.1.player.health → acc.1.state = st0.state ∧ acc.1.bestTime = st0.bestTime) →
    (acc.1.player.health ≤ 0 →
      acc.1.state = RunState.gameover ∧ acc.1.bestTime = max st0.bestTime st0.timeAlive
      ∧ 0 < acc.1.player.invulnTime) →
    (l.foldl (Mini.collideStep cfg) acc).1.timeAlive = st0.timeAlive
    ∧ (0 < (l.foldl (Mini.collideStep cfg) acc).1.player.health →
        (l.foldl (Mini.collideStep cfg) acc).1.state = st0.state
        ∧ (l.foldl (Mini.collideStep cfg) acc).1.bestTime = st0.bestTime)
    ∧ ((l.foldl (Mini.collideStep cfg) acc).1.player.health ≤ 0 →
        (l.foldl (Mini.collideStep cfg) acc).1.state = RunState.gameover
        ∧ (l.foldl (Mini.collideStep cfg) acc).1.bestTime = max st0.bestTime st0.timeAlive
        ∧ 0 < (l.foldl (Mini.collideStep cfg) acc).1.player.invulnTime) := by
  intro l
  induction l with
  | nil => exact fun acc h1 h2 h3 => ⟨h1, h2, h3⟩
  | cons hzd t ih =>
    intro acc h1 h2 h3
    simp only [List.foldl_cons]
    refine ih (Mini.collideStep cfg acc hzd) ?_ ?_ ?_
    all_goals {
      simp only [Mini.collideStep]
      split_ifs with hhit hvuln hdead
      · -- vulnerable hit that kills
        first
        | exact h1
        | { intro hpos
            exfalso
            simp only at hpos
            linarith }
        | { intro _
            have hlive : 0 < acc.1.player.health := by
              by_contra hld
              have := (h3 (le_of_not_lt hld)).2.2
              linarith
            refine ⟨rfl, ?_, by norm_num⟩
            simp only
            rw [(h2 hlive).2, h1] }
      · -- vulnerable hit, survivor
        first
        | exact h1
        | { intro hpos
            exact h2 (by
              by_contra hld
              have := (h3 (le_of_not_lt hld)).2.2
              linarith) }
        | { intro hdd
            exfalso
            simp only at hdd
            exact hdead hdd }
      · -- invulnerable contact
        first | exact h1 | exact h2 | exact h3
      all_goals first | exact h1 | exact h2 | exact h3
    }

/-- Any single collision step can only raise the recorded best time. -/
lemma mini_collideStep_bestTime_mono (cfg : Mini.Config)
    (acc : Mini.State × Bool × Bool) (hzd : Hazard) :
    acc.1.bestTime ≤ (Mini.collideStep cfg acc hzd).1.bestTime := by
  simp only [Mini.collideStep]
  split_ifs <;> simp [le_max_left]

lemma mini_collideFold_bestTime_mono (cfg : Mini.Config) (l : List Hazard)
    (acc : Mini.State × Bool × Bool) :
    acc.1.bestTime ≤ (l.foldl (Mini.collideStep cfg) acc).1.bestTime := by
  induction l generalizing acc with
  | nil => exact le_rfl
  | cons hzd t ih =>
    simp only [List.foldl_cons]
    exact le_trans (mini_collideStep_bestTime_mono cfg acc hzd)
      (ih (Mini.collideStep cfg acc hzd))

lemma mini_checkCollisions_bestTime_mono (cfg : Mini.Config) (st : Mini.State) :
    st.bestTime ≤ (Mini.checkCollisions cfg st).bestTime := by
  simp only [Mini.checkCollisions]
  split_ifs with h1
  · exact le_rfl
  all_goals exact mini_collideFold_bestTime_mono cfg st.hazards (st, false, false)

/-- C6. Whenever a hit during an active run brings the player's health to
zero, the same collision pass ends the run and records
`bestTime = max bestTime timeAlive` (survival mini-game) respectively
`max bestTime runTime` (ARPG `_endRun`); the best time never decreases over a
full tick. Scenario B: a `health = 20` player overlapped by a hazard with
`invulnTime = 0` and `damagePerHit = 20` ends the pass with health 0, state
`gameover`, and `bestTime` updated to the prior survival time. -/
theorem death_ends_run_records_best :
    (∀ (cfg : Mini.Config) (st : Mini.State),
      st.state = RunState.playing → 0 < st.player.health →
      (Mini.checkCollisions cfg st).player.health ≤ 0 →
      (Mini.checkCollisions cfg st).state = RunState.gameover
      ∧ (Mini.checkCollisions cfg st).bestTime = max st.bestTime st.timeAlive)
    ∧ (∀ (st : Arpg.State) (amount : ℚ),
      (Arpg.dealDamageToPlayer st amount).player.health ≤ 0 →
      (Arpg.dealDamageToPlayer st amount).state = RunState.dead
      ∧ (Arpg.dealDamageToPlayer st amount).bestTime = max st.bestTime st.runTime)
    ∧ (∀ (cfg : Mini.Config) (draws : ℕ → SpawnDraws) (dt : ℚ) (input : Intent)
        (st : Mini.State),
      st.bestTime ≤ (Mini.update cfg draws dt input st).bestTime)
    ∧ ((Mini.checkCollisions Mini.defaultConfig
        { Mini.initialState with
          state := RunState.playing
          timeAlive := 33
          bestTime := 5
          player := { Mini.initialPlayer with health := 20 }
          hazards := [⟨200, 200, 0, 0, 10, 100⟩] }).player.health = 0
      ∧ (Mini.checkCollisions Mini.defaultConfig
        { Mini.initialState with
          state := RunState.playing
          timeAlive := 33
          bestTime := 5
          player := { Mini.initialPlayer with health := 20 }
          hazards := [⟨200, 200, 0, 0, 10, 100⟩] }).state = RunState.gameover
      ∧ (Mini.checkCollisions Mini.defaultConfig
        { Mini.initialState with
          state := RunState.playing
          timeAlive := 33
          bestTime := 5
          player := { Mini.initialPlayer with health := 20 }
          hazards := [⟨200, 200, 0, 0, 10, 100⟩] }).bestTime = 33) := by
  refine ⟨?_, ?_, ?_, ?_⟩
  · intro cfg st hstate hlive
    have hbase := mini_collideFold_death cfg st st.hazards (st, false, false) rfl
      (fun _ => ⟨rfl, rfl⟩) (fun h => absurd h (not_le.2 hlive))
    simp only [Mini.checkCollisions]
    rw [if_neg (not_le.2 hlive)]
    intro hdead
    split_ifs at hdead ⊢ with h1 h2
    all_goals exact ⟨(hbase.2.2 hdead).1, (hbase.2.2 hdead).2.1⟩
  · intro st amount
    simp only [Arpg.dealDamageToPlayer, Arpg.endRun]
    split_ifs with h
    · exact fun _ => ⟨rfl, rfl⟩
    · exact fun hdead => absurd hdead h
  · intro cfg draws dt input st
    simp only [Mini.update]
    split_ifs with h
    · exact le_rfl
    · refine le_trans ?_ (mini_checkCollisions_bestTime_mono cfg _)
      rw [(mini_updateHazards_fields cfg draws dt _).2.2.2.2.2]
  · norm_num [Mini.checkCollisions, Mini.collideStep, registerPulse,
      Mini.defaultConfig, Mini.initialState, Mini.initialPlayer]

/-- Witness for C6 at concrete inputs: the Scenario B state for the survival
check, a 1000-damage hit on the initial ARPG state for `_endRun`, and a
concrete tick for best-time monotonicity. -/
theorem death_ends_run_records_best_witness :
    ((Mini.checkCollisions Mini.defaultConfig
        { Mini.initialState with
          state := RunState.playing
          timeAlive := 33
          bestTime := 5
          player := { Mini.initialPlayer with health := 20 }
          hazards := [⟨200, 200, 0, 0, 10, 100⟩] }).state = RunState.gameover
      ∧ (Mini.checkCollisions Mini.defaultConfig
        { Mini.initialState with
          state := RunState.playing
          timeAlive := 33
          bestTime := 5
          player := { Mini.initialPlayer with health := 20 }
          hazards := [⟨200, 200, 0, 0, 10, 100⟩] }).bestTime = max 5 33)
    ∧ ((Arpg.dealDamageToPlayer
        { player := Arpg.initialPlayer, mobs := [], state := RunState.playing,
          time := 7, runTime := 7, bestTime := 2, lastHitTime := -999,
          lastKillTime := -999, pulses := [] } 1000).state = RunState.dead
      ∧ (Arpg.dealDamageToPlayer
        { player := Arpg.initialPlayer, mobs := [], state := RunState.playing,
          time := 7, runTime := 7, bestTime := 2, lastHitTime := -999,
          lastKillTime := -999, pulses := [] } 1000).bestTime = max 2 7)
    ∧ Mini.initialState.bestTime
        ≤ (Mini.update Mini.defaultConfig (fun _ => ⟨0, 0, 0, 0, 0⟩) 1
            ⟨false, false, false, false, false⟩ Mini.initialState).bestTime := by
  refine ⟨?_, ?_, ?_⟩
  · exact death_ends_run_records_best.1 Mini.defaultConfig
      { Mini.initialState with
        state := RunState.playing
        timeAlive := 33
        bestTime := 5
        player := { Mini.initialPlayer with health := 20 }
        hazards := [⟨200, 200, 0, 0, 10, 100⟩] } rfl (by norm_num [Mini.initialPlayer])
      (le_of_eq death_ends_run_records_best.2.2.2.1)
  · exact death_ends_run_records_best.2.1
      { player := Arpg.initialPlayer, mobs := [], state := RunState.playing,
        time := 7, runTime := 7, bestTime := 2, lastHitTime := -999,
        lastKillTime := -999, pulses := [] } 1000
      (by norm_num [Arpg.dealDamageToPlayer, Arpg.endRun, registerPulse,
        Arpg.initialPlayer, jround])
  · exact death_ends_run_records_best.2.2.1 Mini.defaultConfig (fun _ => ⟨0, 0, 0, 0, 0⟩)
      1 ⟨false, false, false, false, false⟩ Mini.initialState

/-! ## C5: the hit predicate (boundary contact, invulnerability gating) -/

lemma ratSqrt_kilo : ratSqrt 1024 = 32 := by
  unfold ratSqrt
  rw [Rat.num_ofNat, Rat.den_ofNat]
  rw [show Int.toNat 1024 = 32 ^ 2 from rfl, Nat.sqrt_eq', Nat.sqrt_one]
  norm_num

/-- C5 counterexample. In the ARPG variant a hostile whose center is at
distance exactly `hostileRadius + playerRadius` from the player
(`32 = 16 + 16`, a vulnerable player) does NOT register a hit: the effective
hit radius there is `mob.radius + player.radius * 0.8 = 28.8 < 32`, so the
player's health is unchanged — contact at the claimed boundary is not a hit
in every variant. -/
theorem arpg_boundary_contact_not_hit :
    ratSqrt ((32 - 0) * (32 - 0) + (0 - 0) * (0 - 0))
        = Arpg.initialPlayer.radius + (16 : ℚ)
    ∧ Arpg.initialPlayer.invulnTime ≤ 0
    ∧ (Arpg.handleMobContacts ratSqrt
        { player := Arpg.initialPlayer
          mobs := [⟨32, 0, 16, 40, 40, 12, 0, true⟩]
          state := RunState.playing
          time := 1
          runTime := 1
          bestTime := 0
          lastHitTime := -999
          lastKillTime := -999
          pulses := [] }).player.health = 120
    ∧ Arpg.initialPlayer.health = 120 := by
  refine ⟨?_, ?_, ?_, rfl⟩
  · rw [show ((32 - 0) * (32 - 0) + (0 - 0) * (0 - 0) : ℚ) = 1024 from by norm_num,
      ratSqrt_kilo]
    norm_num [Arpg.initialPlayer]
  · norm_num [Arpg.initialPlayer]
  · norm_num [Arpg.handleMobContacts, Arpg.mobContactStep, Arpg.dealDamageToPlayer,
      Arpg.endRun, registerPulse, Arpg.initialPlayer,
      show ((32 - 0) * (32 - 0) + (0 - 0) * (0 - 0) : ℚ) = 1024 from by norm_num,
      ratSqrt_kilo]

/-- C5 (amended). In the survival variants a hostile damages the player
exactly when the squared center distance is `≤ (hostileRadius +
playerRadius)²` — the boundary counts as a hit — and the invulnerability
timer is not positive (no damage while it is positive). In the ARPG variant
the same gating holds but the radius compared against the (non-squared)
distance is `hostileRadius + 0.8 * playerRadius`, with defense-mitigated
damage floored at 1. -/
theorem hit_iff_overlap_and_vulnerable :
    (∀ (cfg : Mini.Config) (st : Mini.State) (hzd : Hazard),
      st.hazards = [hzd] → 0 < st.player.health →
      (Mini.checkCollisions cfg st).player.health
        = (if (hzd.x - st.player.x) * (hzd.x - st.player.x)
              + (hzd.y - st.player.y) * (hzd.y - st.player.y)
              ≤ (hzd.radius + st.player.radius) * (hzd.radius + st.player.radius)
              ∧ st.player.invulnTime ≤ 0
           then max 0 (st.player.health - cfg.hazards.damagePerHit)
           else st.player.health)
      ∧ (Mini.checkCollisions cfg st).player.invulnTime
        = (if (hzd.x - st.player.x) * (hzd.x - st.player.x)
              + (hzd.y - st.player.y) * (hzd.y - st.player.y)
              ≤ (hzd.radius + st.player.radius) * (hzd.radius + st.player.radius)
              ∧ st.player.invulnTime ≤ 0
           then 0.45 else st.player.invulnTime))
    ∧ (∀ (sqrtFn : ℚ → ℚ) (st : Arpg.State) (mob : Arpg.Mob),
      st.mobs = [mob] → 0 < st.player.health → mob.alive = true →
      (Arpg.handleMobContacts sqrtFn st).player.health
        = (if sqrtFn ((mob.x - st.player.x) * (mob.x - st.player.x)
              + (mob.y - st.player.y) * (mob.y - st.player.y))
              ≤ mob.radius + st.player.radius * 0.8
              ∧ st.player.invulnTime ≤ 0
           then max 0 (st.player.health
              - max 1 (jround (max 0 ((if mob.contactDamage = 0 then 10
                  else mob.contactDamage) - st.player.defense * 0.5))))
           else st.player.health)) := by
  constructor
  · intro cfg st hzd hl hlive
    simp only [Mini.checkCollisions, hl]
    rw [if_neg (not_le.2 hlive)]
    simp only [List.foldl_cons, List.foldl_nil, Mini.collideStep]
    split_ifs <;> first | rfl | tauto
  · intro sqrtFn st mob hl hlive halive
    simp only [Arpg.handleMobContacts, hl]
    rw [if_neg (not_le.2 hlive)]
    simp only [List.foldl_cons, List.foldl_nil, Arpg.mobContactStep, halive,
      Arpg.dealDamageToPlayer, Arpg.endRun]
    split_ifs <;> first | rfl | tauto

/-- Witness for C5 (amended) at Scenario D inputs: a survival hazard whose
center distance is exactly `hostileRadius + playerRadius` (26 = 10 + 16) from
a vulnerable player — the boundary contact — and an ARPG mob adjacent to a
vulnerable player. -/
theorem hit_iff_overlap_and_vulnerable_witness :
    (Mini.checkCollisions Mini.defaultConfig
      { Mini.initialState with
        state := RunState.playing
        hazards := [⟨226, 200, 0, 0, 10, 100⟩] }).player.health
      = (if (226 - 200) * ((226 : ℚ) - 200) + (200 - 200) * ((200 : ℚ) - 200)
            ≤ (10 + 16) * ((10 : ℚ) + 16) ∧ Mini.initialPlayer.invulnTime ≤ 0
         then max 0 (Mini.initialPlayer.health
            - Mini.defaultConfig.hazards.damagePerHit)
         else Mini.initialPlayer.health)
    ∧ (Arpg.handleMobContacts ratSqrt
        { player := Arpg.initialPlayer
          mobs := [⟨20, 0, 16, 40, 40, 12, 0, true⟩]
          state := RunState.playing
          time := 1
          runTime := 1
          bestTime := 0
          lastHitTime := -999
          lastKillTime := -999
          pulses := [] }).player.health
      = (if ratSqrt ((20 - 0) * ((20 : ℚ) - 0) + (0 - 0) * ((0 : ℚ) - 0))
            ≤ 16 + (16 : ℚ) * 0.8 ∧ Arpg.initialPlayer.invulnTime ≤ 0
         then max 0 (Arpg.initialPlayer.health
            - max 1 (jround (max 0 (((if (12 : ℚ) = 0 then 10 else 12)
                - Arpg.initialPlayer.defense * 0.5)))))
         else Arpg.initialPlayer.health) := by
  constructor
  · exact (hit_iff_overlap_and_vulnerable.1 Mini.defaultConfig
      { Mini.initialState with
        state := RunState.playing
        hazards := [⟨226, 200, 0, 0, 10, 100⟩] } ⟨226, 200, 0, 0, 10, 100⟩ rfl
      (by norm_num [Mini.initialState, Mini.initialPlayer])).1
  · exact hit_iff_overlap_and_vulnerable.2 ratSqrt
      { player := Arpg.initialPlayer
        mobs := [⟨20, 0, 16, 40, 40, 12, 0, true⟩]
        state := RunState.playing
        time := 1
        runTime := 1
        bestTime := 0
        lastHitTime := -999
        lastKillTime := -999
        pulses := [] } ⟨20, 0, 16, 40, 40, 12, 0, true⟩ rfl
      (by norm_num [Arpg.initialPlayer]) rfl

/-! ## C1: health and mana bounds -/

lemma orch_levelUpOnce_bounds (prog : Orch.ProgCfg)
    (hhp : 0 ≤ prog.hpPerLevel) (hstr : 0 ≤ prog.strengthPerLevel)
    (hmana : 0 ≤ prog.manaPerLevel) (hint : 0 ≤ prog.intelligencePerLevel)
    (p : Orch.Player)
    (hb : 0 ≤ p.health ∧ p.health ≤ p.maxHealth ∧ 0 ≤ p.mana ∧ p.mana ≤ p.maxMana) :
    0 ≤ (Orch.levelUpOnce prog p).health
    ∧ (Orch.levelUpOnce prog p).health ≤ (Orch.levelUpOnce prog p).maxHealth
    ∧ 0 ≤ (Orch.levelUpOnce prog p).mana
    ∧ (Orch.levelUpOnce prog p).mana ≤ (Orch.levelUpOnce prog p).maxMana := by
  obtain ⟨h1, h2, h3, h4⟩ := hb
  have hj1 : 0 ≤ jround (prog.strengthPerLevel * 1.5) := jround_nonneg (by linarith)
  have hj2 : 0 ≤ jround (prog.intelligencePerLevel * 1.2) := jround_nonneg (by linarith)
  have hmx : (Orch.levelUpOnce prog p).maxHealth
      = p.maxHealth + prog.hpPerLevel + jround (prog.strengthPerLevel * 1.5) := rfl
  have hmm : (Orch.levelUpOnce prog p).maxMana
      = p.maxMana + prog.manaPerLevel + jround (prog.intelligencePerLevel * 1.2) := rfl
  have hh : (Orch.levelUpOnce prog p).health
      = min (Orch.levelUpOnce prog p).maxHealth (p.health + max 5 prog.hpPerLevel) := rfl
  have hm : (Orch.levelUpOnce prog p).mana
      = min (Orch.levelUpOnce prog p).maxMana (p.mana + max 3 prog.manaPerLevel) := rfl
  refine ⟨?_, ?_, ?_, ?_⟩
  · rw [hh]
    refine le_min ?_ ?_
    · rw [hmx]
      linarith
    · have : (5 : ℚ) ≤ max 5 prog.hpPerLevel := le_max_left _ _
      linarith
  · rw [hh]
    exact min_le_left _ _
  · rw [hm]
    refine le_min ?_ ?_
    · rw [hmm]
      linarith
    · have : (3 : ℚ) ≤ max 3 prog.manaPerLevel := le_max_left _ _
      linarith
  · rw [hm]
    exact min_le_left _ _

lemma orch_levelLoop_bounds (prog : Orch.ProgCfg)
    (hhp : 0 ≤ prog.hpPerLevel) (hstr : 0 ≤ prog.strengthPerLevel)
    (hmana : 0 ≤ prog.manaPerLevel) (hint : 0 ≤ prog.intelligencePerLevel) :
    ∀ (f : ℕ) (p : Orch.Player),
    0 ≤ p.health ∧ p.health ≤ p.maxHealth ∧ 0 ≤ p.mana ∧ p.mana ≤ p.maxMana →
    0 ≤ (Orch.levelLoop prog f p).health
    ∧ (Orch.levelLoop prog f p).health ≤ (Orch.levelLoop prog f p).maxHealth
    ∧ 0 ≤ (Orch.levelLoop prog f p).mana
    ∧ (Orch.levelLoop prog f p).mana ≤ (Orch.levelLoop prog f p).maxMana := by
  intro f
  induction f with
  | zero =>
    intro p hb
    simpa only [Orch.levelLoop] using hb
  | succ n ih =>
    intro p hb
    simp only [Orch.levelLoop]
    split_ifs with hc
    · exact ih (Orch.levelUpOnce prog p)
        (orch_levelUpOnce_bounds prog hhp hstr hmana hint p hb)
    · exact hb

lemma orch_grantXp_bounds (prog : Orch.ProgCfg)
    (hhp : 0 ≤ prog.hpPerLevel) (hstr : 0 ≤ prog.strengthPerLevel)
    (hmana : 0 ≤ prog.manaPerLevel) (hint : 0 ≤ prog.intelligencePerLevel)
    (amount : ℚ) (p : Orch.Player)
    (hb : 0 ≤ p.health ∧ p.health ≤ p.maxHealth ∧ 0 ≤ p.mana ∧ p.mana ≤ p.maxMana) :
    0 ≤ (Orch.grantXp prog amount p).health
    ∧ (Orch.grantXp prog amount p).health ≤ (Orch.grantXp prog amount p).maxHealth
    ∧ 0 ≤ (Orch.grantXp prog amount p).mana
    ∧ (Orch.grantXp prog amount p).mana ≤ (Orch.grantXp prog amount p).maxMana := by
  unfold Orch.grantXp
  split_ifs with h
  · exact hb
  · exact orch_levelLoop_bounds prog hhp hstr hmana hint _ _ hb

lemma mini_collideStep_bounds (cfg : Mini.Config)
    (hdmg : 0 ≤ cfg.hazards.damagePerHit) (acc : Mini.State × Bool × Bool)
    (hzd : Hazard)
    (hb : 0 ≤ acc.1.player.health ∧ acc.1.player.health ≤ acc.1.player.maxHealth) :
    0 ≤ (Mini.collideStep cfg acc hzd).1.player.health
    ∧ (Mini.collideStep cfg acc hzd).1.player.health
        ≤ (Mini.collideStep cfg acc hzd).1.player.maxHealth := by
  obtain ⟨h1, h2⟩ := hb
  simp only [Mini.collideStep]
  split_ifs
  all_goals first
    | exact ⟨h1, h2⟩
    | { refine ⟨le_max_left _ _, ?_⟩
        simp only
        exact max_le (by linarith) (by linarith) }

lemma mini_checkCollisions_bounds (cfg : Mini.Config)
    (hdmg : 0 ≤ cfg.hazards.damagePerHit) (st : Mini.State)
    (hb : 0 ≤ st.player.health ∧ st.player.health ≤ st.player.maxHealth) :
    0 ≤ (Mini.checkCollisions cfg st).player.health
    ∧ (Mini.checkCollisions cfg st).player.health
        ≤ (Mini.checkCollisions cfg st).player.maxHealth := by
  simp only [Mini.checkCollisions]
  split_ifs with h1
  · exact hb
  all_goals {
    have hfold := foldlPreserves
      (fun acc : Mini.State × Bool × Bool =>
        0 ≤ acc.1.player.health ∧ acc.1.player.health ≤ acc.1.player.maxHealth)
      (Mini.collideStep cfg)
      (fun a b ha => mini_collideStep_bounds cfg hdmg a b ha)
      st.hazards (st, false, false) hb
    exact hfold }

/-- C1 for the survival mini-game: the full tick preserves
`0 ≤ health ≤ maxHealth` when the configured damage is nonnegative. -/
lemma mini_update_bounds (cfg : Mini.Config) (draws : ℕ → SpawnDraws) (dt : ℚ)
    (input : Intent) (st : Mini.State)
    (hdmg : 0 ≤ cfg.hazards.damagePerHit)
    (hb : 0 ≤ st.player.health ∧ st.player.health ≤ st.player.maxHealth) :
    0 ≤ (Mini.update cfg draws dt input st).player.health
    ∧ (Mini.update cfg draws dt input st).player.health
        ≤ (Mini.update cfg draws dt input st).player.maxHealth := by
  simp only [Mini.update]
  split_ifs with h
  · exact hb
  · refine mini_checkCollisions_bounds cfg hdmg _ ?_
    rw [(mini_updateHazards_fields cfg draws dt _).1]
    have hp := mini_updatePlayer_health cfg dt input st.player
    simp only
    rw [hp.1, hp.2.1]
    exact hb

lemma orch_collideStep_bounds (cfg : Orch.Config)
    (hdmg : 0 ≤ cfg.hazards.damagePerHit) (acc : Orch.State × Bool × Bool)
    (hzd : Hazard)
    (hb : 0 ≤ acc.1.player.health ∧ acc.1.player.health ≤ acc.1.player.maxHealth
      ∧ 0 ≤ acc.1.player.mana ∧ acc.1.player.mana ≤ acc.1.player.maxMana) :
    0 ≤ (Orch.collideStep cfg acc hzd).1.player.health
    ∧ (Orch.collideStep cfg acc hzd).1.player.health
        ≤ (Orch.collideStep cfg acc hzd).1.player.maxHealth
    ∧ 0 ≤ (Orch.collideStep cfg acc hzd).1.player.mana
    ∧ (Orch.collideStep cfg acc hzd).1.player.mana
        ≤ (Orch.collideStep cfg acc hzd).1.player.maxMana := by
  obtain ⟨h1, h2, h3, h4⟩ := hb
  simp only [Orch.collideStep]
  split_ifs
  all_goals first
    | exact ⟨h1, h2, h3, h4⟩
    | { refine ⟨le_max_left _ _, ?_, h3, h4⟩
        simp only
        exact max_le (by linarith) (by linarith) }

lemma orch_checkCollisions_bounds (cfg : Orch.Config)
    (hdmg : 0 ≤ cfg.hazards.damagePerHit)
    (hhp : 0 ≤ cfg.progression.hpPerLevel) (hstr : 0 ≤ cfg.progression.strengthPerLevel)
    (hmana : 0 ≤ cfg.progression.manaPerLevel)
    (hint : 0 ≤ cfg.progression.intelligencePerLevel)
    (st : Orch.State)
    (hb : 0 ≤ st.player.health ∧ st.player.health ≤ st.player.maxHealth
      ∧ 0 ≤ st.player.mana ∧ st.player.mana ≤ st.player.maxMana) :
    0 ≤ (Orch.checkCollisions cfg st).player.health
    ∧ (Orch.checkCollisions cfg st).player.health
        ≤ (Orch.checkCollisions cfg st).player.maxHealth
    ∧ 0 ≤ (Orch.checkCollisions cfg st).player.mana
    ∧ (Orch.checkCollisions cfg st).player.mana
        ≤ (Orch.checkCollisions cfg st).player.maxMana := by
  simp only [Orch.checkCollisions]
  have hfold := foldlPreserves
    (fun acc : Orch.State × Bool × Bool =>
      0 ≤ acc.1.player.health ∧ acc.1.player.health ≤ acc.1.player.maxHealth
      ∧ 0 ≤ acc.1.player.mana ∧ acc.1.player.mana ≤ acc.1.player.maxMana)
    (Orch.collideStep cfg)
    (fun a b ha => orch_collideStep_bounds cfg hdmg a b ha)
    st.hazards (st, false, false) hb
  split_ifs
  all_goals first
    | exact hb
    | exact hfold
    | exact orch_grantXp_bounds cfg.progression hhp hstr hmana hint _ _ hfold

/-- C1 for the orchestrator: the full tick (collisions, consolation xp,
passive xp, level-ups) preserves `0 ≤ health ≤ maxHealth` and
`0 ≤ mana ≤ maxMana` when the damage and per-level gains are nonnegative. -/
lemma orch_update_bounds (cfg : Orch.Config) (draws : ℕ → SpawnDraws) (dt : ℚ)
    (input : Intent) (st : Orch.State)
    (hdmg : 0 ≤ cfg.hazards.damagePerHit)
    (hhp : 0 ≤ cfg.progression.hpPerLevel) (hstr : 0 ≤ cfg.progression.strengthPerLevel)
    (hmana : 0 ≤ cfg.progression.manaPerLevel)
    (hint : 0 ≤ cfg.progression.intelligencePerLevel)
    (hb : 0 ≤ st.player.health ∧ st.player.health ≤ st.player.maxHealth
      ∧ 0 ≤ st.player.mana ∧ st.player.mana ≤ st.player.maxMana) :
    0 ≤ (Orch.update cfg draws dt input st).player.health
    ∧ (Orch.update cfg draws dt input st).player.health
        ≤ (Orch.update cfg draws dt input st).player.maxHealth
    ∧ 0 ≤ (Orch.update cfg draws dt input st).player.mana
    ∧ (Orch.update cfg draws dt input st).player.mana
        ≤ (Orch.update cfg draws dt input st).player.maxMana := by
  simp only [Orch.update]
  split_ifs with h
  · exact hb
  · simp only [Orch.updatePlayerProgression]
    have hcoll := orch_checkCollisions_bounds cfg hdmg hhp hstr hmana hint
      (Orch.updateHazards cfg draws dt
        { st with
          time := st.time + dt
          pulses := updatePulses dt st.pulses
          timeAlive := st.timeAlive + dt
          spawnInterval := cfg.hazards.baseSpawnInterval +
            (cfg.hazards.minSpawnInterval - cfg.hazards.baseSpawnInterval) *
              easeSmooth (Orch.difficultyFactor cfg
                { st with
                  time := st.time + dt
                  pulses := updatePulses dt st.pulses
                  timeAlive := st.timeAlive + dt })
          player := Orch.updatePlayer cfg dt input st.player })
      (by
        rw [(orch_updateHazards_fields cfg draws dt _).1]
        have hp := orch_updatePlayer_fields cfg dt input st.player
        simp only
        rw [hp.1, hp.2.1, hp.2.2.1, hp.2.2.2.1]
        exact hb)
    split_ifs with h2
    · exact orch_grantXp_bounds cfg.progression hhp hstr hmana hint _ _ hcoll
    · exact hcoll

lemma arpg_levelUpOnce_bounds (powFn : ℚ → ℚ) (p : Arpg.Player)
    (hb : 0 ≤ p.health ∧ p.health ≤ p.maxHealth ∧ 0 ≤ p.mana ∧ p.mana ≤ p.maxMana) :
    0 ≤ (Arpg.levelUpOnce powFn p).health
    ∧ (Arpg.levelUpOnce powFn p).health ≤ (Arpg.levelUpOnce powFn p).maxHealth
    ∧ 0 ≤ (Arpg.levelUpOnce powFn p).mana
    ∧ (Arpg.levelUpOnce powFn p).mana ≤ (Arpg.levelUpOnce powFn p).maxMana := by
  obtain ⟨h1, h2, h3, h4⟩ := hb
  have hmx : (Arpg.levelUpOnce powFn p).maxHealth
      = p.maxHealth + 14 + jround ((2 : ℚ) * 1.3) := rfl
  have hmm : (Arpg.levelUpOnce powFn p).maxMana
      = p.maxMana + 6 + jround ((1 : ℚ) * 1.1) := rfl
  have hh : (Arpg.levelUpOnce powFn p).health = (Arpg.levelUpOnce powFn p).maxHealth := rfl
  have hm : (Arpg.levelUpOnce powFn p).mana = (Arpg.levelUpOnce powFn p).maxMana := rfl
  have hj1 : jround ((2 : ℚ) * 1.3) = 3 := by norm_num [jround]
  have hj2 : jround ((1 : ℚ) * 1.1) = 1 := by norm_num [jround]
  refine ⟨?_, le_of_eq hh, ?_, le_of_eq hm⟩
  · rw [hh, hmx, hj1]
    linarith
  · rw [hm, hmm, hj2]
    linarith

lemma arpg_levelLoop_bounds (powFn : ℚ → ℚ) :
    ∀ (f : ℕ) (p : Arpg.Player),
    0 ≤ p.health ∧ p.health ≤ p.maxHealth ∧ 0 ≤ p.mana ∧ p.mana ≤ p.maxMana →
    0 ≤ (Arpg.levelLoop powFn f p).health
    ∧ (Arpg.levelLoop powFn f p).health ≤ (Arpg.levelLoop powFn f p).maxHealth
    ∧ 0 ≤ (Arpg.levelLoop powFn f p).mana
    ∧ (Arpg.levelLoop powFn f p).mana ≤ (Arpg.levelLoop powFn f p).maxMana := by
  intro f
  induction f with
  | zero =>
    intro p hb
    simpa only [Arpg.levelLoop] using hb
  | succ n ih =>
    intro p hb
    simp only [Arpg.levelLoop]
    split_ifs with hc
    · exact ih (Arpg.levelUpOnce powFn p) (arpg_levelUpOnce_bounds powFn p hb)
    · exact hb

lemma arpg_dealDamage_bounds (st : Arpg.State) (amount : ℚ)
    (hb : 0 ≤ st.player.health ∧ st.player.health ≤ st.player.maxHealth) :
    0 ≤ (Arpg.dealDamageToPlayer st amount).player.health
    ∧ (Arpg.dealDamageToPlayer st amount).player.health
        ≤ (Arpg.dealDamageToPlayer st amount).player.maxHealth := by
  obtain ⟨h1, h2⟩ := hb
  simp only [Arpg.dealDamageToPlayer, Arpg.endRun]
  have hfin : (1 : ℚ) ≤ max 1 (jround (max 0 (amount - st.player.defense * 0.5))) :=
    le_max_left _ _
  split_ifs
  all_goals {
    refine ⟨le_max_left _ _, ?_⟩
    simp only
    exact max_le (by linarith) (by linarith) }

/-- C1. After a full tick of either survival variant, and after the ARPG
damage and experience routines, the player's health and mana stay within
bounds: `0 ≤ health ≤ maxHealth` and (where mana exists)
`0 ≤ mana ≤ maxMana`, assuming they held before and the configured damage and
per-level gains are nonnegative (true of every built-in config). Damage
application clamps health at zero, and no operation raises health or mana
above their maxima. -/
theorem tick_health_mana_bounds :
    (∀ (cfg : Mini.Config) (draws : ℕ → SpawnDraws) (dt : ℚ) (input : Intent)
        (st : Mini.State), 0 ≤ dt →
      0 ≤ cfg.hazards.damagePerHit →
      0 ≤ st.player.health → st.player.health ≤ st.player.maxHealth →
      0 ≤ (Mini.update cfg draws dt input st).player.health
      ∧ (Mini.update cfg draws dt input st).player.health
          ≤ (Mini.update cfg draws dt input st).player.maxHealth)
    ∧ (∀ (cfg : Orch.Config) (draws : ℕ → SpawnDraws) (dt : ℚ) (input : Intent)
        (st : Orch.State), 0 ≤ dt →
      0 ≤ cfg.hazards.damagePerHit →
      0 ≤ cfg.progression.hpPerLevel → 0 ≤ cfg.progression.strengthPerLevel →
      0 ≤ cfg.progression.manaPerLevel → 0 ≤ cfg.progression.intelligencePerLevel →
      0 ≤ st.player.health → st.player.health ≤ st.player.maxHealth →
      0 ≤ st.player.mana → st.player.mana ≤ st.player.maxMana →
      0 ≤ (Orch.update cfg draws dt input st).player.health
      ∧ (Orch.update cfg draws dt input st).player.health
          ≤ (Orch.update cfg draws dt input st).player.maxHealth
      ∧ 0 ≤ (Orch.update cfg draws dt input st).player.mana
      ∧ (Orch.update cfg draws dt input st).player.mana
          ≤ (Orch.update cfg draws dt input st).player.maxMana)
    ∧ (∀ (st : Arpg.State) (amount : ℚ),
      0 ≤ st.player.health → st.player.health ≤ st.player.maxHealth →
      0 ≤ (Arpg.dealDamageToPlayer st amount).player.health
      ∧ (Arpg.dealDamageToPlayer st amount).player.health
          ≤ (Arpg.dealDamageToPlayer st amount).player.maxHealth)
    ∧ (∀ (powFn : ℚ → ℚ) (amount : ℚ) (p : Arpg.Player),
      0 ≤ p.health → p.health ≤ p.maxHealth → 0 ≤ p.mana → p.mana ≤ p.maxMana →
      0 ≤ (Arpg.grantXp powFn amount p).health
      ∧ (Arpg.grantXp powFn amount p).health ≤ (Arpg.grantXp powFn amount p).maxHealth
      ∧ 0 ≤ (Arpg.grantXp powFn amount p).mana
      ∧ (Arpg.grantXp powFn amount p).mana ≤ (Arpg.grantXp powFn amount p).maxMana) := by
  refine ⟨?_, ?_, ?_, ?_⟩
  · intro cfg draws dt input st _hdt hdmg h1 h2
    exact mini_update_bounds cfg draws dt input st hdmg ⟨h1, h2⟩
  · intro cfg draws dt input st _hdt hdmg hhp hstr hmana hint h1 h2 h3 h4
    exact orch_update_bounds cfg draws dt input st hdmg hhp hstr hmana hint ⟨h1, h2, h3, h4⟩
  · intro st amount h1 h2
    exact arpg_dealDamage_bounds st amount ⟨h1, h2⟩
  · intro powFn amount p h1 h2 h3 h4
    exact arpg_levelLoop_bounds powFn _ _ ⟨h1, h2, h3, h4⟩

/-- Witness for C1: one tick of each survival variant from its initial state
(made playing) under the built-in defaults, a 7-damage ARPG hit, and a
250-xp ARPG grant. -/
theorem tick_health_mana_bounds_witness :
    (0 ≤ (Mini.update Mini.defaultConfig (fun _ => ⟨0, 0, 0, 0, 0⟩) 1
        ⟨true, false, false, true, false⟩
        { Mini.initialState with state := RunState.playing }).player.health)
    ∧ (0 ≤ (Orch.update (Orch.defaultConfig ratSqrt (fun _ => 0))
        (fun _ => ⟨0, 0, 0, 0, 0⟩) 1 ⟨true, false, false, true, false⟩
        { Orch.initialState with state := RunState.playing }).player.mana)
    ∧ (0 ≤ (Arpg.dealDamageToPlayer
        { player := Arpg.initialPlayer, mobs := [], state := RunState.playing,
          time := 7, runTime := 7, bestTime := 2, lastHitTime := -999,
          lastKillTime := -999, pulses := [] } 7).player.health)
    ∧ ((Arpg.grantXp (fun _ => 0) 250 Arpg.initialPlayer).health
        ≤ (Arpg.grantXp (fun _ => 0) 250 Arpg.initialPlayer).maxHealth) := by
  refine ⟨?_, ?_, ?_, ?_⟩
  · exact (tick_health_mana_bounds.1 Mini.defaultConfig (fun _ => ⟨0, 0, 0, 0, 0⟩) 1
      ⟨true, false, false, true, false⟩ { Mini.initialState with state := RunState.playing }
      (by norm_num) (by norm_num [Mini.defaultConfig])
      (by norm_num [Mini.initialState, Mini.initialPlayer])
      (by norm_num [Mini.initialState, Mini.initialPlayer])).1
  · exact (tick_health_mana_bounds.2.1 (Orch.defaultConfig ratSqrt (fun _ => 0))
      (fun _ => ⟨0, 0, 0, 0, 0⟩) 1 ⟨true, false, false, true, false⟩
      { Orch.initialState with state := RunState.playing }
      (by norm_num) (by norm_num [Orch.defaultConfig])
      (by norm_num [Orch.defaultConfig, Orch.defaultProgression])
      (by norm_num [Orch.defaultConfig, Orch.defaultProgression])
      (by norm_num [Orch.defaultConfig, Orch.defaultProgression])
      (by norm_num [Orch.defaultConfig, Orch.defaultProgression])
      (by norm_num [Orch.initialState, Orch.initialPlayer])
      (by norm_num [Orch.initialState, Orch.initialPlayer])
      (by norm_num [Orch.initialState, Orch.initialPlayer])
      (by norm_num [Orch.initialState, Orch.initialPlayer])).2.2.1
  · exact (tick_health_mana_bounds.2.2.1
      { player := Arpg.initialPlayer, mobs := [], state := RunState.playing,
        time := 7, runTime := 7, bestTime := 2, lastHitTime := -999,
        lastKillTime := -999, pulses := [] } 7
      (by norm_num [Arpg.initialPlayer]) (by norm_num [Arpg.initialPlayer])).1
  · exact (tick_health_mana_bounds.2.2.2 (fun _ => 0) 250 Arpg.initialPlayer
      (by norm_num [Arpg.initialPlayer]) (by norm_num [Arpg.initialPlayer])
      (by norm_num [Arpg.initialPlayer]) (by norm_num [Arpg.initialPlayer])).2.1

/-! ## C3: the difficulty factor -/

/-- C3. The difficulty factor equals `clamp(survivalTime, 0, rampDuration) /
rampDuration`: it is exactly 0 at `survivalTime = 0`, exactly 1 for every
`survivalTime ≥ rampDuration`, always lies in `[0, 1]`, and is monotonically
non-decreasing in survival time — in both the survival mini-game
(`Mini.difficultyFactor`) and the orchestrator (`Orch.difficultyFactor`),
for a positive ramp duration. -/
theorem difficultyFactor_clamped_monotone :
    (∀ (cfg : Mini.Config) (st : Mini.State), 0 < cfg.difficultyDuration →
      Mini.difficultyFactor cfg st
          = max 0 (min cfg.difficultyDuration st.timeAlive) / cfg.difficultyDuration
        ∧ 0 ≤ Mini.difficultyFactor cfg st ∧ Mini.difficultyFactor cfg st ≤ 1
        ∧ (st.timeAlive = 0 → Mini.difficultyFactor cfg st = 0)
        ∧ (cfg.difficultyDuration ≤ st.timeAlive → Mini.difficultyFactor cfg st = 1))
    ∧ (∀ (cfg : Mini.Config) (st st' : Mini.State), 0 < cfg.difficultyDuration →
        st.timeAlive ≤ st'.timeAlive →
        Mini.difficultyFactor cfg st ≤ Mini.difficultyFactor cfg st')
    ∧ (∀ (cfg : Orch.Config) (st : Orch.State), 0 < cfg.difficultyDuration →
      Orch.difficultyFactor cfg st
          = max 0 (min cfg.difficultyDuration st.timeAlive) / cfg.difficultyDuration
        ∧ 0 ≤ Orch.difficultyFactor cfg st ∧ Orch.difficultyFactor cfg st ≤ 1
        ∧ (st.timeAlive = 0 → Orch.difficultyFactor cfg st = 0)
        ∧ (cfg.difficultyDuration ≤ st.timeAlive → Orch.difficultyFactor cfg st = 1))
    ∧ (∀ (cfg : Orch.Config) (st st' : Orch.State), 0 < cfg.difficultyDuration →
        st.timeAlive ≤ st'.timeAlive →
        Orch.difficultyFactor cfg st ≤ Orch.difficultyFactor cfg st') := by
  refine ⟨?_, ?_, ?_, ?_⟩
  · intro cfg st h
    refine ⟨rfl, clampDiv_nonneg _ _ h, clampDiv_le_one _ _ h, ?_, ?_⟩
    · intro ht
      simp only [Mini.difficultyFactor, ht]
      exact clampDiv_zero cfg.difficultyDuration h
    · intro ht
      exact clampDiv_one cfg.difficultyDuration st.timeAlive h ht
  · intro cfg st st' h hle
    exact clampDiv_mono _ _ _ h hle
  · intro cfg st h
    refine ⟨rfl, clampDiv_nonneg _ _ h, clampDiv_le_one _ _ h, ?_, ?_⟩
    · intro ht
      simp only [Orch.difficultyFactor, ht]
      exact clampDiv_zero cfg.difficultyDuration h
    · intro ht
      exact clampDiv_one cfg.difficultyDuration st.timeAlive h ht
  · intro cfg st st' h hle
    exact clampDiv_mono _ _ _ h hle

/-- Witness for C3 at concrete inputs: the default configs (ramp duration 60)
and survival times 30 ≤ 45, giving factors 1/2 and 3/4. -/
theorem difficultyFactor_clamped_monotone_witness :
    Mini.difficultyFactor Mini.defaultConfig { Mini.initialState with timeAlive := 30 } ≤
      Mini.difficultyFactor Mini.defaultConfig { Mini.initialState with timeAlive := 45 }
    ∧ Orch.difficultyFactor (Orch.defaultConfig ratSqrt (fun _ => 0))
        { Orch.initialState with timeAlive := 0 } = 0 := by
  constructor
  · exact difficultyFactor_clamped_monotone.2.1 Mini.defaultConfig
      { Mini.initialState with timeAlive := 30 } { Mini.initialState with timeAlive := 45 }
      (by norm_num [Mini.defaultConfig]) (by norm_num)
  · exact (difficultyFactor_clamped_monotone.2.2.1 (Orch.defaultConfig ratSqrt (fun _ => 0))
      { Orch.initialState with timeAlive := 0 }
      (by norm_num [Orch.defaultConfig])).2.2.2.1 rfl

end Ractr
